/-
Verification of the StyleAgent retail curation engine.

This file gives a shallow embedding, in Lean 4, of the parts of the
Python sources relevant to the specification's claims:

* `agents/colour_engine_agent.py` — the `ColourWheel` hue rotations;
* `scripts/color_engine.py`       — the colour database, palette helpers
                                    and `validate_rule_of_three`;
* `scripts/state_schema.py`       — `StyleState` and its methods;
* `scripts/feedback_loop.py`      — the `FeedbackHandler`;
* `scripts/wardrobe_architect_agent.py` — the `curate` pipeline.

Machine reals (Python floats) are modelled by `ℚ`; Python's `%` on
floats with a positive modulus is modelled by `pymod` (floor-based
modulo).  Python dictionaries with a fixed key set are modelled by
structures; fallible computation (a raised exception) by `Except`.
-/
import Mathlib

namespace StyleAgent

/-- Python's `x % n` on numbers, for a positive modulus `n`: the result
has the sign of the modulus, i.e. `x - n * ⌊x / n⌋`. -/
def pymod (x n : ℚ) : ℚ := x - n * ⌊x / n⌋

namespace ColourWheel

/-- A colour in hue/saturation/lightness space, as produced by
`ColourWheel.hex_to_hsl`: hue in degrees, saturation and lightness
in `[0, 1]`. -/
structure HSL where
  h : ℚ
  s : ℚ
  l : ℚ
deriving DecidableEq, Repr

/-- `ColourWheel.hsl_to_hex` first wraps the hue:
`hue_degrees = hue_degrees % 360`. -/
def wrap_hue (h : ℚ) : ℚ := pymod h 360

/-- `ColourWheel.complementary`: `complement_hue = (h + 180) % 360`,
saturation and lightness passed through unchanged. -/
def complementary (c : HSL) : HSL :=
  { h := pymod (c.h + 180) 360, s := c.s, l := c.l }

/-- `ColourWheel.analogous`: `left_hue = (h - 30) % 360`,
`right_hue = (h + 30) % 360`, saturation/lightness unchanged. -/
def analogous (c : HSL) : HSL × HSL :=
  ({ h := pymod (c.h - 30) 360, s := c.s, l := c.l },
   { h := pymod (c.h + 30) 360, s := c.s, l := c.l })

/-- `ColourWheel.triadic`: `triad_1 = (h + 120) % 360`,
`triad_2 = (h + 240) % 360`. -/
def triadic (c : HSL) : HSL × HSL :=
  ({ h := pymod (c.h + 120) 360, s := c.s, l := c.l },
   { h := pymod (c.h + 240) 360, s := c.s, l := c.l })

/-- Lightness clamp used by `ColourWheel.monochromatic`:
`max(0.1, min(0.9, value))`. -/
def clamp (value : ℚ) : ℚ := max (1/10) (min (9/10) value)

/-- `ColourWheel.monochromatic`: four tints/shades of the same hue,
lightness shifted by `+0.25, +0.12, -0.12, -0.25` and clamped. -/
def monochromatic (c : HSL) : List HSL :=
  [ { h := c.h, s := c.s, l := clamp (c.l + 25/100) },
    { h := c.h, s := c.s, l := clamp (c.l + 12/100) },
    { h := c.h, s := c.s, l := clamp (c.l - 12/100) },
    { h := c.h, s := c.s, l := clamp (c.l - 25/100) } ]

/-- `ColourWheel.split_complementary`: `split_1 = (h + 150) % 360`,
`split_2 = (h + 210) % 360`. -/
def split_complementary (c : HSL) : HSL × HSL :=
  ({ h := pymod (c.h + 150) 360, s := c.s, l := c.l },
   { h := pymod (c.h + 210) 360, s := c.s, l := c.l })

end ColourWheel

/-! ### String helpers: Python's `in` and SQL `LIKE '%…%'` -/

/-- Is `n` a prefix of the first list? -/
def listStartsWith : List Char → List Char → Bool
  | _, [] => true
  | [], _ :: _ => false
  | c :: cs, d :: ds => c == d && listStartsWith cs ds

/-- Does the first list contain `n` as a contiguous sublist? -/
def listHasSub : List Char → List Char → Bool
  | [], n => n.isEmpty
  | c :: t, n => listStartsWith (c :: t) n || listHasSub t n

/-- Python's `needle in hay` on strings (contiguous-substring test). -/
def pyIn (needle hay : String) : Bool := listHasSub hay.toList needle.toList

/-- Python's `str.lower()` (ASCII as used here). -/
def pyToLower (s : String) : String := String.mk (s.toList.map Char.toLower)

/-- Python's `str.strip()` — drop whitespace at both ends. -/
def pyStrip (s : String) : String :=
  String.mk (((s.toList.dropWhile Char.isWhitespace).reverse.dropWhile
    Char.isWhitespace).reverse)

/-- Python's `str.replace("_", " ")`. -/
def pyUnderscoreToSpace (s : String) : String :=
  String.mk (s.toList.map (fun c => if c == '_' then ' ' else c))

/-- SQLite's `col LIKE '%pat%'` (ASCII-case-insensitive substring). -/
def sqlLike (col pat : String) : Bool := pyIn (pyToLower pat) (pyToLower col)

/-! ### `scripts/color_engine.py` -/

namespace ColorEngine

/-- One value of the `COLOR_DB` dictionary in `color_engine.py`. -/
structure ColorInfo where
  hex : String
  family : String
  warmth : String
  season : String
deriving DecidableEq, Repr

/-- `COLOR_DB` — colour families with hex codes, in source order. -/
def COLOR_DB : List (String × ColorInfo) := [
  ("Emerald Green",   ⟨"#046307", "jewel", "cool", "winter"⟩),
  ("Maroon",          ⟨"#800000", "jewel", "warm", "winter"⟩),
  ("Royal Blue",      ⟨"#002366", "jewel", "cool", "winter"⟩),
  ("Deep Wine",       ⟨"#722F37", "jewel", "warm", "winter"⟩),
  ("Royal Purple",    ⟨"#6A0DAD", "jewel", "cool", "winter"⟩),
  ("Bottle Green",    ⟨"#006A4E", "jewel", "cool", "winter"⟩),
  ("Ruby Red",        ⟨"#9B111E", "jewel", "warm", "winter"⟩),
  ("Pastel Pink",     ⟨"#FFD1DC", "pastel", "warm", "summer"⟩),
  ("Lavender",        ⟨"#B57EDC", "pastel", "cool", "summer"⟩),
  ("Mint",            ⟨"#98FF98", "pastel", "cool", "summer"⟩),
  ("Peach",           ⟨"#FFDAB9", "pastel", "warm", "summer"⟩),
  ("Coral",           ⟨"#FF7F50", "pastel", "warm", "summer"⟩),
  ("Cobalt Blue",     ⟨"#0047AB", "bold", "cool", "all"⟩),
  ("Electric Indigo", ⟨"#6F00FF", "bold", "cool", "all"⟩),
  ("Teal",            ⟨"#008080", "bold", "cool", "all"⟩),
  ("Mustard Yellow",  ⟨"#E1A95F", "warm", "warm", "all"⟩),
  ("Black",           ⟨"#000000", "neutral", "neutral", "all"⟩),
  ("White",           ⟨"#FFFFFF", "neutral", "neutral", "all"⟩),
  ("Ivory",           ⟨"#FFFFF0", "neutral", "warm", "all"⟩),
  ("Beige",           ⟨"#F5F5DC", "neutral", "warm", "all"⟩),
  ("Neutral Grey",    ⟨"#808080", "neutral", "neutral", "all"⟩),
  ("Charcoal",        ⟨"#36454F", "neutral", "cool", "all"⟩),
  ("Navy Blue",       ⟨"#000080", "neutral", "cool", "all"⟩),
  ("Gold",            ⟨"#D4AF37", "metallic", "warm", "all"⟩),
  ("Rose Gold",       ⟨"#B76E79", "metallic", "warm", "all"⟩),
  ("Silver",          ⟨"#C0C0C0", "metallic", "cool", "all"⟩),
  ("Red",             ⟨"#D2042D", "bold", "warm", "all"⟩),
  ("Magenta",         ⟨"#FF00FF", "bold", "warm", "all"⟩),
  ("Olive Green",     ⟨"#556B2F", "earth", "warm", "all"⟩),
  ("Tan",             ⟨"#D2B48C", "earth", "warm", "all"⟩),
  ("Brown",           ⟨"#8B4513", "earth", "warm", "all"⟩),
  ("Nude",            ⟨"#E8CCBF", "neutral", "warm", "all"⟩),
  ("Indigo",          ⟨"#3F00FF", "bold", "cool", "all"⟩)]

/-- `COMPLEMENTARY_PAIRINGS`, in source order. -/
def COMPLEMENTARY_PAIRINGS : List (String × List String) := [
  ("Maroon",          ["Gold", "Ivory", "Beige", "Emerald Green"]),
  ("Emerald Green",   ["Gold", "Maroon", "Ivory", "Ruby Red"]),
  ("Cobalt Blue",     ["Gold", "Ivory", "Beige", "Silver"]),
  ("Royal Purple",    ["Gold", "Ivory", "Silver", "Mint"]),
  ("Navy Blue",       ["Gold", "Ivory", "Rose Gold", "White"]),
  ("Teal",            ["Mustard Yellow", "Gold", "Coral", "Ivory"]),
  ("Mustard Yellow",  ["Teal", "Navy Blue", "Ivory", "White"]),
  ("Black",           ["Gold", "Silver", "Red", "White"]),
  ("White",           ["Gold", "Navy Blue", "Cobalt Blue", "Black"]),
  ("Ivory",           ["Gold", "Maroon", "Emerald Green", "Navy Blue"]),
  ("Deep Wine",       ["Gold", "Ivory", "Beige", "Rose Gold"]),
  ("Pastel Pink",     ["Silver", "Ivory", "Mint", "Gold"]),
  ("Lavender",        ["Silver", "Ivory", "Gold", "Mint"]),
  ("Mint",            ["Gold", "Coral", "Ivory", "Lavender"]),
  ("Peach",           ["Gold", "Ivory", "Teal", "White"]),
  ("Coral",           ["Gold", "Teal", "Ivory", "Mint"]),
  ("Red",             ["Gold", "Ivory", "Black", "Beige"]),
  ("Gold",            ["Maroon", "Emerald Green", "Navy Blue", "Black"]),
  ("Electric Indigo", ["Silver", "Gold", "Ivory", "White"]),
  ("Bottle Green",    ["Gold", "Ivory", "Rose Gold", "Beige"])]

/-- `OCCASION_PALETTE_MAP`. -/
def OCCASION_PALETTE_MAP : List (String × String) := [
  ("wedding",    "analogous"),
  ("reception",  "complementary"),
  ("sangeet",    "complementary"),
  ("haldi",      "monochromatic"),
  ("mehendi",    "analogous"),
  ("diwali",     "complementary"),
  ("eid",        "analogous"),
  ("navratri",   "complementary"),
  ("corporate",  "monochromatic"),
  ("date_night", "complementary"),
  ("vacation",   "analogous"),
  ("brunch",     "monochromatic")]

/-- `get_palette_strategy(occasion, vibe)`. -/
def get_palette_strategy (occasion : String) (vibe : String) : String :=
  let strategy := (OCCASION_PALETTE_MAP.lookup (pyToLower occasion)).getD "complementary"
  if vibe == "party" || vibe == "glamorous" || vibe == "energetic" then
    "complementary"
  else if vibe == "serene" || vibe == "polished" || vibe == "laid_back" then
    "monochromatic"
  else strategy

/-- `_get_color_mood(color_name)`: classify a `COLOR_DB` colour into one
of the four UI moods. -/
def get_color_mood (color_name : String) : String :=
  let family := ((COLOR_DB.lookup color_name).map ColorInfo.family).getD "neutral"
  if family == "pastel" then "Pastel"
  else if family == "earth" || family == "warm" then "Earthy"
  else if family == "jewel" || family == "bold" then "Vibrant"
  else "Neutral"

/-- `_matches_mood` (the inner closure of `get_secondary_colors`). -/
def matches_mood (requested_mood : String) (c_name : String) : Bool :=
  if requested_mood == "Any" || requested_mood == "Neutral" then true
  else get_color_mood c_name == requested_mood || get_color_mood c_name == "Neutral"

/-- `get_secondary_colors(primary_hex, strategy, requested_mood)`:
2 recommended secondary hex codes masked by mood (defined in
`color_engine.py`; note that `wardrobe_architect_agent.py` calls it
without importing it). -/
def get_secondary_colors (primary_hex : String) (strategy : String)
    (requested_mood : String) : List String :=
  match COLOR_DB.find? (fun p => pyToLower p.2.hex == pyToLower primary_hex) with
  | none => ["#D4AF37", "#FFFFF0"]
  | some (color_name, cinfo) =>
    if strategy == "monochromatic" then
      let hits := (COLOR_DB.filter (fun p =>
        p.2.warmth == cinfo.warmth && p.1 ≠ color_name &&
          matches_mood requested_mood p.1)).map (fun p => p.2.hex)
      if hits.length ≥ 2 then hits.take 2 else ["#D4AF37", "#FFFFF0"]
    else if strategy == "complementary" then
      let comps := (COMPLEMENTARY_PAIRINGS.lookup color_name).getD ["Gold", "Ivory"]
      let hits := comps.filterMap (fun c =>
        match COLOR_DB.lookup c with
        | some i => if matches_mood requested_mood c then some i.hex else none
        | none => none)
      let hits := if hits.isEmpty then
          comps.filterMap (fun c => (COLOR_DB.lookup c).map ColorInfo.hex)
        else hits
      if hits.length ≥ 2 then hits.take 2 else ["#D4AF37", "#FFFFF0"]
    else
      let hits := (COLOR_DB.filter (fun p =>
        (p.2.warmth == cinfo.warmth || p.2.family == cinfo.family) &&
          p.1 ≠ color_name && matches_mood requested_mood p.1)).map (fun p => p.2.hex)
      let hits := if hits.isEmpty then
          (COLOR_DB.filter (fun p =>
            (p.2.warmth == cinfo.warmth || p.2.family == cinfo.family) &&
              p.1 ≠ color_name)).map (fun p => p.2.hex)
        else hits
      if hits.length ≥ 2 then hits.take 2 else ["#D4AF37", "#FFFFF0"]

/-- `get_jewelry_metal(skin_tone, occasion)`. -/
def get_jewelry_metal (skin_tone : String) (occasion : String) : String :=
  let occasion_key := pyToLower occasion
  if (occasion_key == "wedding" || occasion_key == "diwali" ||
      occasion_key == "reception") && skin_tone ≠ "cool" then
    "Gold"
  else if pyToLower skin_tone == "warm" then "Gold"
  else if pyToLower skin_tone == "cool" then "Silver"
  else if pyToLower skin_tone == "neutral" then "Rose Gold"
  else "Gold"

/-- Result dictionary of `suggest_accent_color`. -/
structure AccentSuggestion where
  accent_color : String
  accent_hex : String
  base_color : String
  base_hex : String
  suggestion : String
deriving DecidableEq, Repr

/-- `suggest_accent_color(base_neutral, trending_color)` — the bridge
logic. -/
def suggest_accent_color (base_neutral trending_color : String) : AccentSuggestion :=
  let trend_hex := match COLOR_DB.lookup trending_color with
    | some i => i.hex
    | none => "#0047AB"
  let base_hex := match COLOR_DB.lookup base_neutral with
    | some i => i.hex
    | none => "#808080"
  { accent_color := trending_color
    accent_hex := trend_hex
    base_color := base_neutral
    base_hex := base_hex
    suggestion := "Use " ++ base_neutral ++ " as your foundation piece, then introduce "
      ++ trending_color ++ " as an accent — through a dupatta, pocket square, "
      ++ "jewelry, or a single statement accessory. This creates an elevated look "
      ++ "without departing from your comfort zone." }

/-- First-occurrence, order-preserving de-duplication:
`list(dict.fromkeys(colors))`. -/
def pyDedupAux : List String → List String → List String
  | [], _ => []
  | c :: t, seen =>
    if seen.contains c then pyDedupAux t seen else c :: pyDedupAux t (c :: seen)

/-- `list(dict.fromkeys(colors))` — remove duplicates, keep first
occurrences in order. -/
def pyDedup (l : List String) : List String := pyDedupAux l []

/-- The neutral test of `validate_rule_of_three`:
`COLOR_DB.get(c, \x7b\x7d).get("family") == "neutral"`. -/
def isNeutralFamily (c : String) : Bool :=
  ((COLOR_DB.lookup c).map ColorInfo.family) == some "neutral"

/-- Result dictionary of `validate_rule_of_three`; the compliant branch
returns no `"dropped"` key, modelled by `dropped = none`. -/
structure RuleOfThree where
  valid : Bool
  colors : List String
  dropped : Option (List String)
  message : String
deriving DecidableEq, Repr

/-- `validate_rule_of_three(colors)` — enforce the Rule of Three
(max 3 distinct non-neutral colours). -/
def validate_rule_of_three (colors : List String) : RuleOfThree :=
  let unique := pyDedup colors
  let neutrals := unique.filter isNeutralFamily
  let non_neutrals := unique.filter (fun c => !(neutrals.contains c))
  if non_neutrals.length ≤ 3 then
    { valid := true, colors := unique, dropped := none
      message := "✓ " ++ toString non_neutrals.length
        ++ " distinct colors — curated and premium." }
  else
    let keep := non_neutrals.take 2 ++ neutrals.take 1
    let drop := non_neutrals.drop 2
    { valid := false, colors := keep, dropped := some drop
      message := "⚠ " ++ toString non_neutrals.length
        ++ " colors detected. Reducing to 3 for a curated feel. Dropping: "
        ++ String.intercalate ", " drop }

/-- `get_color_hex(color_name)`. -/
def get_color_hex (color_name : String) : String :=
  match COLOR_DB.lookup color_name with
  | some i => i.hex
  | none => "#808080"

/-- `get_stylists_tip(primary_color, strategy, occasion)`. -/
def get_stylists_tip (primary_color strategy occasion : String) : String :=
  let occ := pyUnderscoreToSpace occasion
  if strategy == "analogous" then
    "💡 Stylist\x27s Tip: This tonal palette centered around " ++ primary_color
      ++ " creates a sophisticated, seamless flow. The analogous colors blend "
      ++ "without competing — ideal for the " ++ occ ++ " setting."
  else if strategy == "monochromatic" then
    "💡 Stylist\x27s Tip: A monochromatic approach anchored in " ++ primary_color
      ++ " is the hallmark of quiet luxury. The varying shades add depth while "
      ++ "maintaining an effortlessly polished look for your " ++ occ ++ "."
  else
    "💡 Stylist\x27s Tip: The " ++ primary_color ++ " base creates a striking canvas. "
      ++ "I\x27ve paired it with complementary tones to create visual interest — "
      ++ "perfect for a " ++ occ ++ " where you want to stand out elegantly."

end ColorEngine


/-! ### `scripts/state_schema.py` -/

/-- `TrendBrief` — output of the Trend Scout agent. -/
structure TrendBrief where
  trending_colors : List String := []
  key_fabrics : List String := []
  must_have_silhouette : List String := []
  season : String := ""
  year : Int := 2026
  source_summary : String := ""
deriving DecidableEq, Repr

/-- `UserStyleProfile` — output of the Customer Persona agent. -/
structure UserStyleProfile where
  user_id : Int := 0
  dominant_colors : List String := []
  dominant_colors_pct : List (String × ℚ) := []
  preferred_silhouettes : List String := []
  preferred_fabrics : List String := []
  style_dna : String := ""
  size : String := ""
  skin_tone : String := ""
  primary_colors : List String := []
  budget_range : ℚ × ℚ := (0, 50000)
deriving DecidableEq, Repr

/-- `OutfitItem` — a single item in the curated outfit. -/
structure OutfitItem where
  sku : String := ""
  name : String := ""
  category : String := ""
  brand : String := ""
  price : ℚ := 0
  color : String := ""
  color_hex : String := ""
  fabric : String := ""
  image_url : String := ""
  product_url : String := ""
  style_match_pct : ℚ := 0
  role : String := ""
  cut : String := ""
  fit : String := ""
  silhouette : String := ""
  vibe : String := ""
deriving DecidableEq, Repr

/-- `FinalRecommendation` — curated outfit plus justification.  The
`accessory_suite` dict (string keys and values) is modelled as an
association list in insertion order. -/
structure FinalRecommendation where
  outfit_items : List OutfitItem := []
  the_why : String := ""
  trend_alignment_score : ℚ := 0
  confidence_score : ℚ := 0
  inventory_availability_status : String := "available"
  palette_strategy : String := ""
  color_palette : List String := []
  accessory_suite : List (String × String) := []
  occasion : String := ""
  sub_occasion : String := ""
deriving DecidableEq, Repr

/-- One entry of `state.inventory_match`
(`{"sku": …, "name": …, "price": …}`). -/
structure InventoryMatch where
  sku : String
  name : String
  price : ℚ
deriving DecidableEq, Repr

/-- `StyleState` — the global state handed between agents.  The
`timestamp` is produced by `datetime.now()` and carried as an opaque
string. -/
structure StyleState where
  trend_brief : Option TrendBrief := none
  user_style_profile : Option UserStyleProfile := none
  inventory_match : List InventoryMatch := []
  final_recommendation : Option FinalRecommendation := none
  occasion : String := ""
  sub_occasion : String := ""
  budget : ℚ := 15000
  gender : String := ""
  region : String := ""
  user_query : String := ""
  preferred_clothing_type : String := "Any"
  preferred_accessory_type : String := "Any"
  preferred_jewelry_type : String := "Any"
  color_mood : String := "Neutral"
  preferred_vibe : String := "Any"
  current_step : String := "idle"
  feedback_history : List String := []
  rejected_skus : List String := []
  iteration : Int := 0
  timestamp : String := ""
deriving DecidableEq, Repr

/-- `StyleState.reset_for_refinement` — reset for a feedback-driven
re-curation, keeping user profile and trends. -/
def StyleState.reset_for_refinement (s : StyleState) : StyleState :=
  { s with inventory_match := []
           final_recommendation := none
           current_step := "wardrobe_architect"
           iteration := s.iteration + 1 }

/-- A scalar value of the dashboard-export dictionary: every value of
`to_dashboard_format` is a plain string or a plain number — there is no
constructor for a nested object. -/
inductive DashValue where
  | s (v : String)
  | n (v : ℚ)
deriving DecidableEq, Repr

/-- `StyleState.to_dashboard_format` — export state for dashboard
display, as an association list in insertion order. -/
def StyleState.to_dashboard_format (st : StyleState) : List (String × DashValue) :=
  [("occasion", .s st.occasion),
   ("sub_occasion", .s st.sub_occasion),
   ("budget", .n st.budget),
   ("gender", .s st.gender),
   ("region", .s st.region),
   ("style_dna", .s (match st.user_style_profile with
     | some p => p.style_dna
     | none => "")),
   ("trend_alignment_score", .n (match st.final_recommendation with
     | some r => r.trend_alignment_score
     | none => 0)),
   ("availability", .s (match st.final_recommendation with
     | some r => r.inventory_availability_status
     | none => "")),
   ("palette", .s (match st.final_recommendation with
     | some r => r.palette_strategy
     | none => "")),
   ("outfit_count", .n (match st.final_recommendation with
     | some r => (r.outfit_items.length : ℚ)
     | none => 0)),
   ("iteration", .n (st.iteration : ℚ)),
   ("the_why", .s (match st.final_recommendation with
     | some r => r.the_why
     | none => ""))]

/-! ### `scripts/feedback_loop.py` -/

namespace FeedbackLoop

/-- One entry of the `FEEDBACK_PATTERNS` dictionary. -/
structure FeedbackPattern where
  name : String
  keywords : List String
  action : String
  description : String
deriving DecidableEq, Repr

/-- `FEEDBACK_PATTERNS`, in dictionary insertion order. -/
def FEEDBACK_PATTERNS : List FeedbackPattern := [
  ⟨"too_heavy",
    ["too heavy", "lighter", "lightweight", "breathable", "less heavy", "too warm"],
    "swap_to_lighter_fabric", "Swap to lighter fabric alternatives"⟩,
  ⟨"too_bright",
    ["too bright", "more subtle", "toned down", "muted", "less vibrant", "pastel"],
    "shift_to_neutral_palette", "Shift to analogous/monochromatic palette"⟩,
  ⟨"cheaper",
    ["cheaper", "less expensive", "budget", "affordable", "low cost", "too expensive"],
    "reduce_budget", "Lower budget tier and re-filter"⟩,
  ⟨"bolder",
    ["bolder", "more vibrant", "brighter", "pop of color", "stand out", "louder"],
    "shift_to_bold_palette", "Shift to complementary/bold palette"⟩,
  ⟨"change_color",
    ["make it", "change to", "prefer", "in red", "in blue", "in green", "more blue",
     "more red"],
    "change_primary_color", "Change the primary color of the outfit"⟩,
  ⟨"more_traditional",
    ["more traditional", "more ethnic", "heavier", "more indian", "classic look"],
    "shift_to_traditional", "Shift to heavier traditional options"⟩,
  ⟨"more_modern",
    ["more modern", "fusion", "indo-western", "contemporary", "western"],
    "shift_to_modern", "Shift to modern/fusion options"⟩,
  ⟨"reject",
    ["don\x27t like", "no", "reject", "try again", "something else", "different"],
    "full_re_curate", "Full re-curation with secondary trends"⟩]

/-- `FEEDBACK_PATTERNS[name]` (the keys are distinct, so positional
lookup by `name` is the dictionary access). -/
def FEEDBACK_PATTERNS_at (nm : String) : FeedbackPattern :=
  (FEEDBACK_PATTERNS.find? (fun p => p.name == nm)).getD ⟨"", [], "", ""⟩

/-- `COLOR_NAMES` — the fixed colour-extraction vocabulary. -/
def COLOR_NAMES : List String :=
  ["red", "blue", "green", "yellow", "black", "white", "gold", "silver",
   "maroon", "navy", "teal", "coral", "peach", "lavender", "mint", "pink",
   "purple", "orange", "ivory", "beige", "cobalt", "emerald", "wine"]

/-- `COLOR_MAP`. -/
def COLOR_MAP : List (String × String) := [
  ("red", "Red"), ("blue", "Cobalt Blue"), ("green", "Emerald Green"),
  ("yellow", "Mustard Yellow"), ("black", "Black"), ("white", "White"),
  ("gold", "Gold"), ("silver", "Silver"), ("maroon", "Maroon"),
  ("navy", "Navy Blue"), ("teal", "Teal"), ("coral", "Coral"),
  ("peach", "Peach"), ("lavender", "Lavender"), ("mint", "Mint"),
  ("pink", "Pastel Pink"), ("purple", "Royal Purple"), ("orange", "Coral"),
  ("ivory", "Ivory"), ("beige", "Beige"), ("cobalt", "Cobalt Blue"),
  ("emerald", "Emerald Green"), ("wine", "Deep Wine")]

/-- `FeedbackHandler._extract_color(text)`: first vocabulary keyword
occurring in the text, mapped through `COLOR_MAP`; `""` when none. -/
def extract_color (text : String) : String :=
  match COLOR_NAMES.find? (fun k => pyIn k text) with
  | some k => (COLOR_MAP.lookup k).getD "Cobalt Blue"
  | none => ""

/-- The pattern-detection loop of `FeedbackHandler.process`: the first
pattern (in insertion order) with a keyword contained in the lowered
text, defaulting to `FEEDBACK_PATTERNS["reject"]`. -/
def classify (feedback_lower : String) : FeedbackPattern :=
  (FEEDBACK_PATTERNS.find? (fun p =>
    p.keywords.any (fun k => pyIn k feedback_lower))).getD
      (FEEDBACK_PATTERNS_at "reject")

/-- `FeedbackHandler._swap_lighter` (`light_fabrics[:4]`). -/
def swap_lighter (s : StyleState) : StyleState :=
  match s.trend_brief with
  | some tb =>
    let tb := { tb with key_fabrics := ["Chiffon", "Georgette", "Cotton", "Linen"] }
    { s with trend_brief := some tb }
  | none => s

/-- `FeedbackHandler._shift_neutral`. -/
def shift_neutral (s : StyleState) : StyleState :=
  match s.trend_brief with
  | some tb =>
    let tb := { tb with
      trending_colors := ["Ivory", "Lavender", "Mint", "Peach", "Beige"] }
    { s with trend_brief := some tb }
  | none => s

/-- `FeedbackHandler._reduce_budget` — reduce budget by 30%. -/
def reduce_budget (s : StyleState) : StyleState :=
  { s with budget := s.budget * (7/10) }

/-- `FeedbackHandler._shift_bold`. -/
def shift_bold (s : StyleState) : StyleState :=
  match s.trend_brief with
  | some tb =>
    let tb := { tb with
      trending_colors := ["Cobalt Blue", "Emerald Green", "Red", "Electric Indigo", "Magenta"] }
    { s with trend_brief := some tb }
  | none => s

/-- `FeedbackHandler._change_color(state, color)` — front-load the
requested colour; a no-op when no colour was extracted. -/
def change_color (s : StyleState) (color : String) : StyleState :=
  match s.trend_brief with
  | some tb =>
    if color ≠ "" then
      let tb := { tb with
        trending_colors := color :: (tb.trending_colors.filter (fun c => c ≠ color)).take 4 }
      { s with trend_brief := some tb }
    else s
  | none => s

/-- `FeedbackHandler._shift_traditional`. -/
def shift_traditional (s : StyleState) : StyleState :=
  match s.trend_brief with
  | some tb =>
    let tb := { tb with
      key_fabrics := ["Kanjeevaram Silk", "Banarasi Silk", "Velvet", "Raw Silk"]
      must_have_silhouette := ["Draped", "Structured", "Flared"] }
    { s with trend_brief := some tb }
  | none => s

/-- `FeedbackHandler._shift_modern`. -/
def shift_modern (s : StyleState) : StyleState :=
  match s.trend_brief with
  | some tb =>
    let tb := { tb with
      key_fabrics := ["Organza", "Sequin Georgette", "Cotton Blend", "Linen"]
      must_have_silhouette := ["Pre-Draped", "Slim Fit", "Crop"] }
    { s with trend_brief := some tb }
  | none => s

/-- `FeedbackHandler._full_re_curate` — rotate the trending colours. -/
def full_re_curate (s : StyleState) : StyleState :=
  match s.trend_brief with
  | some tb =>
    if tb.trending_colors.length > 2 then
      let tb := { tb with
        trending_colors := tb.trending_colors.drop 2 ++ tb.trending_colors.take 2 }
      { s with trend_brief := some tb }
    else s
  | none => s

/-- The `if action == …` dispatch chain of `FeedbackHandler.process`. -/
def applyAction (action feedback_lower : String) (s : StyleState) : StyleState :=
  if action == "swap_to_lighter_fabric" then swap_lighter s
  else if action == "shift_to_neutral_palette" then shift_neutral s
  else if action == "reduce_budget" then reduce_budget s
  else if action == "shift_to_bold_palette" then shift_bold s
  else if action == "change_primary_color" then
    change_color s (extract_color feedback_lower)
  else if action == "shift_to_traditional" then shift_traditional s
  else if action == "shift_to_modern" then shift_modern s
  else if action == "full_re_curate" then full_re_curate s
  else s

/-- The rejected-SKU marking loop of `FeedbackHandler.process`:
append each shown item's SKU not already blacklisted. -/
def markRejected (rejected : List String) (items : List OutfitItem) : List String :=
  items.foldl (fun acc item =>
    if acc.contains item.sku then acc else acc ++ [item.sku]) rejected

/-- The "mark rejected SKUs" step of `FeedbackHandler.process`
(`if state.final_recommendation: …`). -/
def mark_rejected_step (s : StyleState) : StyleState :=
  match s.final_recommendation with
  | some rec => { s with rejected_skus := markRejected s.rejected_skus rec.outfit_items }
  | none => s

/-- `FeedbackHandler.process(feedback_text, state)`: append feedback to
history, classify, apply the action, blacklist the shown items and
reset for re-curation; returns the updated state and the action
description. -/
def process (feedback_text : String) (s0 : StyleState) : StyleState × String :=
  let feedback_lower := pyStrip (pyToLower feedback_text)
  let s := { s0 with feedback_history := s0.feedback_history ++ [feedback_text] }
  let matched_action := classify feedback_lower
  let action := matched_action.action
  let description := matched_action.description
  let s := applyAction action feedback_lower s
  let description := if action == "change_primary_color" then
      (let color := extract_color feedback_lower
       if color ≠ "" then description ++ " → " ++ color else description)
    else description
  let s := mark_rejected_step s
  (s.reset_for_refinement, description)

end FeedbackLoop

/-! ### `scripts/wardrobe_architect_agent.py` -/

namespace WardrobeArchitect

/-- A row of the `current_inventory` table consumed by the agent's SQL
queries (schema from `scripts/setup_db.py`; the `vibe` column referenced
by the strict variant of `_execute_vibe_query` is carried as a field). -/
structure Row where
  sku : String
  name : String
  category : String
  brand : String
  price : ℚ
  color_family : String
  color_hex : String
  fabric : String
  occasion_tags : String
  silhouette : String
  gender : String
  region_suitability : String
  image_url : String
  product_url : String
  stock_status : String
  vibe : String
deriving DecidableEq, Repr

/-- Stable insertion for descending-price order: an incoming row goes
after every row of equal or higher price. -/
def insertDesc (r : Row) : List Row → List Row
  | [] => [r]
  | x :: xs => if x.price < r.price then r :: x :: xs else x :: insertDesc r xs

/-- `ORDER BY price DESC` — a stable descending-price sort. -/
def sortByPriceDesc (l : List Row) : List Row := l.foldr insertDesc []

/-- One SQL query of the agent:
`SELECT * … WHERE cond ORDER BY price DESC LIMIT 5`. -/
def runQuery (catalog : List Row) (cond : Row → Bool) : List Row :=
  (sortByPriceDesc (catalog.filter cond)).take 5

/-- `WardrobeArchitectAgent._execute_vibe_query`: first attempt a strict
vibe match (`… AND vibe = ?`), then fall back to any vibe; the Boolean
reports whether the strict query produced the rows. -/
def execute_vibe_query (catalog : List Row) (base : Row → Bool)
    (vibe_pref : String) : List Row × Bool :=
  if vibe_pref ≠ "Any" then
    if !(runQuery catalog (fun r => base r && r.vibe == vibe_pref)).isEmpty then
      (runQuery catalog (fun r => base r && r.vibe == vibe_pref), true)
    else (runQuery catalog base, false)
  else (runQuery catalog base, false)

/-- The `WHERE` clause shared by the three queries of
`_find_main_piece` (category in Top/Full/Bottom, occasion tag, gender,
price ceiling, stock, optional clothing-type preference, rejected-SKU
exclusion). -/
def main_piece_base (occasion gender : String) (budget : ℚ)
    (rejected : List String) (pref_clothing : String) (r : Row) : Bool :=
  (r.category == "Top" || r.category == "Full" || r.category == "Bottom") &&
  sqlLike r.occasion_tags occasion &&
  (r.gender == gender || r.gender == "unisex") &&
  decide (r.price ≤ budget) &&
  r.stock_status == "in_stock" &&
  (pref_clothing == "Any" || sqlLike r.name pref_clothing) &&
  !(rejected.contains r.sku)

/-- `WardrobeArchitectAgent._find_main_piece`: trending colours first,
then the user's colours, then any colour. -/
def find_main_piece (catalog : List Row) (occasion gender : String)
    (budget : ℚ) (trending_colors user_colors : List String)
    (rejected : List String) (pref_clothing vibe_pref : String) :
    Option Row × Bool :=
  match (if trending_colors.isEmpty then ([], false)
         else execute_vibe_query catalog
           (fun r => main_piece_base occasion gender budget rejected pref_clothing r &&
             trending_colors.contains r.color_family) vibe_pref) with
  | (r :: _, mv) => (some r, mv)
  | ([], _) =>
    match (if user_colors.isEmpty then ([], false)
           else execute_vibe_query catalog
             (fun r => main_piece_base occasion gender budget rejected pref_clothing r &&
               user_colors.contains r.color_family) vibe_pref) with
    | (r :: _, mv) => (some r, mv)
    | ([], _) =>
      match execute_vibe_query catalog
          (main_piece_base occasion gender budget rejected pref_clothing) vibe_pref with
      | (r :: _, mv) => (some r, mv)
      | ([], _) => (none, false)

/-- The `WHERE` clause of `_find_piece`. -/
def piece_base (category occasion gender : String) (budget : ℚ)
    (rejected : List String) (pref_clothing : String) (r : Row) : Bool :=
  r.category == category &&
  sqlLike r.occasion_tags occasion &&
  (r.gender == gender || r.gender == "unisex") &&
  decide (r.price ≤ budget) &&
  r.stock_status == "in_stock" &&
  (pref_clothing == "Any" || sqlLike r.name pref_clothing) &&
  !(rejected.contains r.sku)

/-- `WardrobeArchitectAgent._find_piece`: target hex colours first, then
any colour. -/
def find_piece (catalog : List Row) (category occasion gender : String)
    (budget : ℚ) (colors_hex : List String) (rejected : List String)
    (pref_clothing vibe_pref : String) : Option Row × Bool :=
  match (if colors_hex.isEmpty then ([], false)
         else execute_vibe_query catalog
           (fun r => piece_base category occasion gender budget rejected pref_clothing r &&
             colors_hex.contains r.color_hex) vibe_pref) with
  | (r :: _, mv) => (some r, mv)
  | ([], _) =>
    match execute_vibe_query catalog
        (piece_base category occasion gender budget rejected pref_clothing) vibe_pref with
    | (r :: _, mv) => (some r, mv)
    | ([], _) => (none, false)

/-- The `WHERE` clause of `_find_layer` (no type-preference filter). -/
def layer_base (occasion gender : String) (budget : ℚ)
    (rejected : List String) (r : Row) : Bool :=
  r.category == "Layer" &&
  sqlLike r.occasion_tags occasion &&
  (r.gender == gender || r.gender == "unisex") &&
  decide (r.price ≤ budget) &&
  r.stock_status == "in_stock" &&
  !(rejected.contains r.sku)

/-- `WardrobeArchitectAgent._find_layer`. -/
def find_layer (catalog : List Row) (occasion gender : String) (budget : ℚ)
    (colors_hex : List String) (rejected : List String) (vibe_pref : String) :
    Option Row × Bool :=
  match (if colors_hex.isEmpty then ([], false)
         else execute_vibe_query catalog
           (fun r => layer_base occasion gender budget rejected r &&
             colors_hex.contains r.color_hex) vibe_pref) with
  | (r :: _, mv) => (some r, mv)
  | ([], _) =>
    match execute_vibe_query catalog (layer_base occasion gender budget rejected)
        vibe_pref with
    | (r :: _, mv) => (some r, mv)
    | ([], _) => (none, false)

/-- The `WHERE` clause of `_find_jewelry`. -/
def jewelry_base (occasion gender : String) (budget : ℚ)
    (rejected : List String) (pref_jewelry : String) (r : Row) : Bool :=
  r.category == "Jewelry" &&
  sqlLike r.occasion_tags occasion &&
  (r.gender == gender || r.gender == "unisex") &&
  decide (r.price ≤ budget) &&
  r.stock_status == "in_stock" &&
  (pref_jewelry == "Any" || sqlLike r.name pref_jewelry) &&
  !(rejected.contains r.sku)

/-- `WardrobeArchitectAgent._find_jewelry`: metal-matching query first
(`fabric LIKE ? OR color_family LIKE ?`), then the base query. -/
def find_jewelry (catalog : List Row) (occasion gender metal : String)
    (budget : ℚ) (rejected : List String) (pref_jewelry vibe_pref : String) :
    Option Row × Bool :=
  match execute_vibe_query catalog
      (fun r => jewelry_base occasion gender budget rejected pref_jewelry r &&
        (sqlLike r.fabric metal || sqlLike r.color_family metal))
      vibe_pref with
  | (r :: _, mv) => (some r, mv)
  | ([], _) =>
    match execute_vibe_query catalog
        (jewelry_base occasion gender budget rejected pref_jewelry) vibe_pref with
    | (r :: _, mv) => (some r, mv)
    | ([], _) => (none, false)

/-- The `WHERE` clause of `_find_footwear`. -/
def footwear_base (occasion gender : String) (budget : ℚ)
    (rejected : List String) (r : Row) : Bool :=
  r.category == "Footwear" &&
  sqlLike r.occasion_tags occasion &&
  (r.gender == gender || r.gender == "unisex") &&
  decide (r.price ≤ budget) &&
  r.stock_status == "in_stock" &&
  !(rejected.contains r.sku)

/-- `WardrobeArchitectAgent._find_footwear` — a single query. -/
def find_footwear (catalog : List Row) (occasion gender : String)
    (budget : ℚ) (rejected : List String) (vibe_pref : String) :
    Option Row × Bool :=
  match execute_vibe_query catalog (footwear_base occasion gender budget rejected)
      vibe_pref with
  | (r :: _, mv) => (some r, mv)
  | ([], _) => (none, false)

/-- The `WHERE` clause of `_find_accessory`. -/
def accessory_base (occasion gender : String) (budget : ℚ)
    (rejected : List String) (pref_accessory : String) (r : Row) : Bool :=
  r.category == "Accessory" &&
  sqlLike r.occasion_tags occasion &&
  (r.gender == gender || r.gender == "unisex") &&
  decide (r.price ≤ budget) &&
  r.stock_status == "in_stock" &&
  (pref_accessory == "Any" || sqlLike r.name pref_accessory) &&
  !(rejected.contains r.sku)

/-- `WardrobeArchitectAgent._find_accessory`: accent colours first,
then any colour. -/
def find_accessory (catalog : List Row) (occasion gender : String)
    (budget : ℚ) (accent_colors : List String) (rejected : List String)
    (pref_accessory vibe_pref : String) : Option Row × Bool :=
  match (if accent_colors.isEmpty then ([], false)
         else execute_vibe_query catalog
           (fun r => accessory_base occasion gender budget rejected pref_accessory r &&
             accent_colors.contains r.color_family) vibe_pref) with
  | (r :: _, mv) => (some r, mv)
  | ([], _) =>
    match execute_vibe_query catalog
        (accessory_base occasion gender budget rejected pref_accessory) vibe_pref with
    | (r :: _, mv) => (some r, mv)
    | ([], _) => (none, false)

/-- `WardrobeArchitectAgent._row_to_outfit_item`. -/
def row_to_outfit_item (row : Row) (role : String) : OutfitItem :=
  { sku := row.sku, name := row.name, category := row.category
    brand := row.brand, price := row.price, color := row.color_family
    color_hex := row.color_hex, fabric := row.fabric
    image_url := row.image_url, product_url := row.product_url
    style_match_pct := 0, role := role }

/-- `WardrobeArchitectAgent._calculate_trend_score` (1–10 scale).  All
attainable scores are multiples of `0.5`, so Python's `round(score, 1)`
is the identity and is not modelled separately. -/
def calculate_trend_score (items : List OutfitItem)
    (trending_colors : List String) (trend_brief : Option TrendBrief) : ℚ :=
  if items.isEmpty || trending_colors.isEmpty then 5
  else
    let item_colors := ColorEngine.pyDedup (items.map (fun i => i.color))
    let color_hits : ℚ :=
      ((item_colors.filter (fun c => trending_colors.contains c)).length : ℚ)
    let score : ℚ := 5 + min (color_hits * (3/2)) 3
    let score : ℚ := match trend_brief with
      | some tb =>
        let item_fabrics := ColorEngine.pyDedup (items.map (fun i => i.fabric))
        let fabric_hits : ℚ :=
          ((item_fabrics.filter (fun f => tb.key_fabrics.contains f)).length : ℚ)
        score + min fabric_hits 2
      | none => score
    min score 10

/-- The occasion-guidance dictionary returned by
`indian_fashion_kb.get_occasion_guidance`; `curate` reads only the
`vibe` and `colors` entries (and prints `display_name` /
`regional_note`), so exactly those are modelled and the lookup result is
passed to `curate` as an input. -/
structure Guidance where
  display_name : String := ""
  vibe : String := ""
  colors : List String := []
  regional_note : String := ""
deriving DecidableEq, Repr

/-- A raised Python exception. -/
inductive PyErr where
  | nameError (name : String)
deriving DecidableEq, Repr

/-- The module-level names bound in `wardrobe_architect_agent.py`
(its imports and definitions).  `get_secondary_colors` is **not** among
them: the import list from `color_engine` omits it although the module
calls it. -/
def wardrobe_architect_globals : List String :=
  ["annotations", "sqlite3", "os", "Optional",
   "StyleState", "OutfitItem", "FinalRecommendation",
   "get_palette_strategy", "get_complementary_colors", "get_jewelry_metal",
   "suggest_accent_color", "validate_rule_of_three", "get_color_hex",
   "get_stylists_tip",
   "get_occasion_guidance", "get_skin_tone_metals", "get_style_dna_info",
   "get_client", "DB_PATH", "WardrobeArchitectAgent"]

/-- `occasion = state.occasion or "date_night"`. -/
def eff_occasion (st : StyleState) : String :=
  if st.occasion == "" then "date_night" else st.occasion

/-- `gender = state.gender or "female"`. -/
def eff_gender (st : StyleState) : String :=
  if st.gender == "" then "female" else st.gender

/-- `budget = state.budget or 50000` (Python's `or`: `0.0` is falsy). -/
def eff_budget (st : StyleState) : ℚ :=
  if st.budget == 0 then 50000 else st.budget

/-- Step 2: `palette_strategy = get_palette_strategy(occasion,
guidance.get("vibe", ""))`. -/
def strategy_of (gd : Guidance) (st : StyleState) : String :=
  ColorEngine.get_palette_strategy (eff_occasion st) gd.vibe

/-- Step 3: `trending_colors = trend_brief.trending_colors if trend_brief
else guidance.get("colors", [])[:3]`. -/
def trending_of (gd : Guidance) (st : StyleState) : List String :=
  match st.trend_brief with
  | some tb => tb.trending_colors
  | none => gd.colors.take 3

/-- `user_colors = profile.dominant_colors if profile else []`. -/
def user_colors_of (st : StyleState) : List String :=
  match st.user_style_profile with
  | some p => p.dominant_colors
  | none => []

/-- `skin_tone = profile.skin_tone if profile else "neutral"`. -/
def skin_tone_of (st : StyleState) : String :=
  match st.user_style_profile with
  | some p => p.skin_tone
  | none => "neutral"

/-- `style_dna = profile.style_dna if profile else "Fusion Explorer"`. -/
def style_dna_of (st : StyleState) : String :=
  match st.user_style_profile with
  | some p => p.style_dna
  | none => "Fusion Explorer"

/-- `accent_colors = [c for c in trending_colors if c not in user_colors]`. -/
def accent_colors_of (gd : Guidance) (st : StyleState) : List String :=
  (trending_of gd st).filter (fun c => !((user_colors_of st).contains c))

/-- `user_neutrals` — the user's colours within the fixed neutral tuple. -/
def user_neutrals_of (st : StyleState) : List String :=
  (user_colors_of st).filter (fun c =>
    (["Black", "White", "Ivory", "Beige", "Neutral Grey", "Navy Blue",
      "Charcoal"] : List String).contains c)

/-- Step 4: the main-piece query of `curate`. -/
def main_of (gd : Guidance) (st : StyleState) (cat : List Row) :
    Option Row × Bool :=
  find_main_piece cat (eff_occasion st) (eff_gender st) (eff_budget st)
    (trending_of gd st) (user_colors_of st) st.rejected_skus
    st.preferred_clothing_type st.preferred_vibe

/-- `remaining = budget - (main_piece["price"] if main_piece else 0)`. -/
def remaining1_of (gd : Guidance) (st : StyleState) (cat : List Row) : ℚ :=
  eff_budget st - (match (main_of gd st cat).1 with
    | some m => m.price
    | none => 0)

/-- The complementary-piece target category
(`"Top" if main_piece["category"] == "Bottom" else "Bottom"`). -/
def target_category_of (m : Row) : String :=
  if m.category == "Bottom" then "Top" else "Bottom"

/-- Line 110: `get_secondary_colors(main_piece["color_hex"],
palette_strategy, color_mood)` — evaluated only when the name resolves
(see `curate`). -/
def sec_colors1_of (gd : Guidance) (st : StyleState) (cat : List Row) :
    List String :=
  match (main_of gd st cat).1 with
  | some m => ColorEngine.get_secondary_colors m.color_hex (strategy_of gd st)
      st.color_mood
  | none => []

/-- The complementary-piece query (`if main_piece and main_piece["category"]
!= "Full"`). -/
def comp_of (gd : Guidance) (st : StyleState) (cat : List Row) :
    Option Row × Bool :=
  match (main_of gd st cat).1 with
  | some m =>
    if m.category == "Full" then (none, false)
    else find_piece cat (target_category_of m) (eff_occasion st) (eff_gender st)
      (remaining1_of gd st cat) (sec_colors1_of gd st cat) st.rejected_skus
      st.preferred_clothing_type st.preferred_vibe
  | none => (none, false)

/-- Remaining budget after the complementary piece. -/
def remaining2_of (gd : Guidance) (st : StyleState) (cat : List Row) : ℚ :=
  remaining1_of gd st cat - (match (comp_of gd st cat).1 with
    | some c => c.price
    | none => 0)

/-- Line 123: `get_secondary_colors(primary_colors[0], …) if
primary_colors else []`.  `primary_colors` is non-empty exactly when a
main piece was found, and its head is the main piece's colour *family*
(a colour name, not a hex code). -/
def sec_colors2_of (gd : Guidance) (st : StyleState) (cat : List Row) :
    List String :=
  match (main_of gd st cat).1 with
  | some m => ColorEngine.get_secondary_colors m.color_family
      (strategy_of gd st) st.color_mood
  | none => []

/-- Step 5: the layer query. -/
def layer_of (gd : Guidance) (st : StyleState) (cat : List Row) :
    Option Row × Bool :=
  find_layer cat (eff_occasion st) (eff_gender st) (remaining2_of gd st cat)
    (sec_colors2_of gd st cat) st.rejected_skus st.preferred_vibe

/-- Remaining budget after the layer. -/
def remaining3_of (gd : Guidance) (st : StyleState) (cat : List Row) : ℚ :=
  remaining2_of gd st cat - (match (layer_of gd st cat).1 with
    | some l => l.price
    | none => 0)

/-- Step 6: `jewelry_metal = get_jewelry_metal(skin_tone, occasion)`. -/
def jewelry_metal_of (st : StyleState) : String :=
  ColorEngine.get_jewelry_metal (skin_tone_of st) (eff_occasion st)

/-- Step 6: the jewellery query. -/
def jewelry_of (gd : Guidance) (st : StyleState) (cat : List Row) :
    Option Row × Bool :=
  find_jewelry cat (eff_occasion st) (eff_gender st) (jewelry_metal_of st)
    (remaining3_of gd st cat) st.rejected_skus st.preferred_jewelry_type
    st.preferred_vibe

/-- Remaining budget after jewellery. -/
def remaining4_of (gd : Guidance) (st : StyleState) (cat : List Row) : ℚ :=
  remaining3_of gd st cat - (match (jewelry_of gd st cat).1 with
    | some j => j.price
    | none => 0)

/-- Step 7: the footwear query. -/
def footwear_of (gd : Guidance) (st : StyleState) (cat : List Row) :
    Option Row × Bool :=
  find_footwear cat (eff_occasion st) (eff_gender st)
    (remaining4_of gd st cat) st.rejected_skus st.preferred_vibe

/-- Remaining budget after footwear. -/
def remaining5_of (gd : Guidance) (st : StyleState) (cat : List Row) : ℚ :=
  remaining4_of gd st cat - (match (footwear_of gd st cat).1 with
    | some f => f.price
    | none => 0)

/-- Step 8: the accessory query. -/
def accessory_of (gd : Guidance) (st : StyleState) (cat : List Row) :
    Option Row × Bool :=
  find_accessory cat (eff_occasion st) (eff_gender st)
    (remaining5_of gd st cat) (accent_colors_of gd st) st.rejected_skus
    st.preferred_accessory_type st.preferred_vibe

/-- Remaining budget after the accessory (the final value). -/
def remaining6_of (gd : Guidance) (st : StyleState) (cat : List Row) : ℚ :=
  remaining5_of gd st cat - (match (accessory_of gd st cat).1 with
    | some a => a.price
    | none => 0)

/-- The `outfit_items` list assembled across the six slots, in slot
order with the role labels of `curate`. -/
def items_of (gd : Guidance) (st : StyleState) (cat : List Row) :
    List OutfitItem :=
  (match (main_of gd st cat).1 with
    | some m => [row_to_outfit_item m "The Base — Main Piece"]
    | none => []) ++
  (match (main_of gd st cat).1, (comp_of gd st cat).1 with
    | some m, some cp => [row_to_outfit_item cp
        ("The Base — Complementary " ++ target_category_of m)]
    | _, _ => []) ++
  (match (layer_of gd st cat).1 with
    | some l => [row_to_outfit_item l "The Layer"]
    | none => []) ++
  (match (jewelry_of gd st cat).1 with
    | some j => [row_to_outfit_item j "The Accents — Jewelry"]
    | none => []) ++
  (match (footwear_of gd st cat).1 with
    | some f => [row_to_outfit_item f "The Finishing Touches — Footwear"]
    | none => []) ++
  (match (accessory_of gd st cat).1 with
    | some a => [row_to_outfit_item a
        (if (accent_colors_of gd st).contains a.color_family then
          "The Accents — Hero Accessory" else "The Accents — Accessory")]
    | none => [])

/-- The `primary_colors` list: colour families of the main,
complementary, layer and jewellery pieces, plus the accessory's when it
is an accent (footwear never contributes). -/
def colors_of (gd : Guidance) (st : StyleState) (cat : List Row) :
    List String :=
  (match (main_of gd st cat).1 with
    | some m => [m.color_family]
    | none => []) ++
  (match (comp_of gd st cat).1 with
    | some cp => [cp.color_family]
    | none => []) ++
  (match (layer_of gd st cat).1 with
    | some l => [l.color_family]
    | none => []) ++
  (match (jewelry_of gd st cat).1 with
    | some j => [j.color_family]
    | none => []) ++
  (match (accessory_of gd st cat).1 with
    | some a =>
      if (accent_colors_of gd st).contains a.color_family then
        [a.color_family]
      else []
    | none => [])

/-- `total_items` — the number of filled slots. -/
def total_items_of (gd : Guidance) (st : StyleState) (cat : List Row) : Nat :=
  (match (main_of gd st cat).1 with | some _ => 1 | none => 0) +
  (match (comp_of gd st cat).1 with | some _ => 1 | none => 0) +
  (match (layer_of gd st cat).1 with | some _ => 1 | none => 0) +
  (match (jewelry_of gd st cat).1 with | some _ => 1 | none => 0) +
  (match (footwear_of gd st cat).1 with | some _ => 1 | none => 0) +
  (match (accessory_of gd st cat).1 with | some _ => 1 | none => 0)

/-- `vibe_hits` — filled slots whose row came from the strict vibe
query. -/
def vibe_hits_of (gd : Guidance) (st : StyleState) (cat : List Row) : Nat :=
  (match main_of gd st cat with | (some _, true) => 1 | _ => 0) +
  (match comp_of gd st cat with | (some _, true) => 1 | _ => 0) +
  (match layer_of gd st cat with | (some _, true) => 1 | _ => 0) +
  (match jewelry_of gd st cat with | (some _, true) => 1 | _ => 0) +
  (match footwear_of gd st cat with | (some _, true) => 1 | _ => 0) +
  (match accessory_of gd st cat with | (some _, true) => 1 | _ => 0)

/-- The wrap-up of `curate` (steps after the slot queries): scores,
justification, palette export and the `FinalRecommendation`, written
back into the state.  The LLM justification
(`self.ollama.generate_justification`) is an external collaborator and
is passed in as the function `llm`.  `color_validation` is computed —
and then never used — exactly as in the source. -/
def build_state (llm : List OutfitItem → String → String → List String →
      String → String) (gd : Guidance) (st : StyleState) (cat : List Row) :
    StyleState :=
  let occasion := eff_occasion st
  let outfit_items := items_of gd st cat
  let primary_colors := colors_of gd st cat
  let total_items := total_items_of gd st cat
  let vibe_hits := vibe_hits_of gd st cat
  let color_validation := ColorEngine.validate_rule_of_three primary_colors
  let total_cost := (outfit_items.map (fun i => i.price)).sum
  let availability := if outfit_items.isEmpty then "out_of_stock" else "available"
  let confidence_score : ℚ :=
    if total_items > 0 then (vibe_hits : ℚ) / (total_items : ℚ) * 100 else 0
  let trend_score := calculate_trend_score outfit_items (trending_of gd st)
    st.trend_brief
  let the_why := llm outfit_items occasion (style_dna_of st) (trending_of gd st)
    (skin_tone_of st)
  let main_color := match primary_colors with
    | c :: _ => c
    | [] => "Cobalt Blue"
  let stylist_tip := ColorEngine.get_stylists_tip main_color (strategy_of gd st)
    occasion
  let color_palette := (primary_colors.take 3).map ColorEngine.get_color_hex
  let accent_bridge := match accent_colors_of gd st, user_neutrals_of st with
    | a :: _, n :: _ => (ColorEngine.suggest_accent_color n a).suggestion
    | _, _ => ""
  let recommendation : FinalRecommendation :=
    { outfit_items := outfit_items
      the_why := the_why
      trend_alignment_score := trend_score
      confidence_score := confidence_score
      inventory_availability_status := availability
      palette_strategy := strategy_of gd st
      color_palette := color_palette
      accessory_suite := [("jewelry_metal", jewelry_metal_of st),
        ("stylist_tip", stylist_tip), ("accent_bridge", accent_bridge)]
      occasion := occasion
      sub_occasion := st.sub_occasion }
  { st with
    final_recommendation := some recommendation
    inventory_match := outfit_items.map (fun i => ⟨i.sku, i.name, i.price⟩)
    current_step := "complete" }

/-- `WardrobeArchitectAgent.curate`.  Python resolves global names at
call time: `get_secondary_colors` is called (lines 110 and 123) but not
imported, so the call raises `NameError` unless the module globals `g`
contain the name; the name is needed exactly when a main piece was found
(`primary_colors` is then non-empty).  All other globals referenced by
`curate` are in `wardrobe_architect_globals` and resolve.  When the name
resolves, the call evaluates `color_engine.get_secondary_colors`. -/
def curate (g : List String)
    (llm : List OutfitItem → String → String → List String → String → String)
    (gd : Guidance) (st : StyleState) (cat : List Row) :
    Except PyErr StyleState :=
  match (main_of gd st cat).1 with
  | some _ =>
    if g.contains "get_secondary_colors" then .ok (build_state llm gd st cat)
    else .error (.nameError "get_secondary_colors")
  | none => .ok (build_state llm gd st cat)

end WardrobeArchitect

/-! ### Concrete evaluation states -/

/-- A fresh state after one `process` call with unrecognised feedback. -/
def c6_state1 : StyleState := (FeedbackLoop.process "xyzzy qux" {}).1

/-- The state after a second `process` call with the same unrecognised
feedback. -/
def c6_state2 : StyleState := (FeedbackLoop.process "xyzzy qux" c6_state1).1

/-- A state carrying a recommendation with a non-zero confidence score. -/
def c9_state : StyleState :=
  { final_recommendation := some { confidence_score := 77 } }

/-- A justification function standing for the external Ollama client
(`generate_justification`); the claims do not depend on its output. -/
def llm0 : List OutfitItem → String → String → List String → String → String :=
  fun _ _ _ _ _ => ""

/-- The module globals with the missing name added — the environment in
which the slot-filling pipeline runs to completion. -/
def gsc_globals : List String :=
  "get_secondary_colors" :: WardrobeArchitect.wardrobe_architect_globals

/-- A single in-stock top matching the default occasion: enough for
`_find_main_piece` to succeed on a fresh state. -/
def c1_row : WardrobeArchitect.Row :=
  { sku := "SKU1", name := "Silk Kurta", category := "Top", brand := ""
    price := 5000, color_family := "Red", color_hex := "#D2042D"
    fabric := "Silk", occasion_tags := "date_night", silhouette := ""
    gender := "female", region_suitability := "", image_url := ""
    product_url := "", stock_status := "in_stock", vibe := "" }

/-- A state whose trend brief carries one trending colour. -/
def st8 : StyleState := { trend_brief := some { trending_colors := ["Red"] } }

/-- Catalog row: a top in the Red colour family. -/
def row_M1 : WardrobeArchitect.Row :=
  { sku := "M1", name := "Silk Kurta", category := "Top", brand := ""
    price := 3000, color_family := "Red", color_hex := "#D2042D"
    fabric := "Silk", occasion_tags := "date_night", silhouette := ""
    gender := "female", region_suitability := "", image_url := ""
    product_url := "", stock_status := "in_stock", vibe := "" }

/-- Catalog row: a bottom whose hex is Red's first complementary. -/
def row_C1 : WardrobeArchitect.Row :=
  { sku := "C1", name := "Brocade Skirt", category := "Bottom", brand := ""
    price := 2000, color_family := "Gold", color_hex := "#D4AF37"
    fabric := "Brocade", occasion_tags := "date_night", silhouette := ""
    gender := "female", region_suitability := "", image_url := ""
    product_url := "", stock_status := "in_stock", vibe := "" }

/-- Catalog row: a layer in the Teal colour family. -/
def row_L1 : WardrobeArchitect.Row :=
  { sku := "L1", name := "Organza Cape", category := "Layer", brand := ""
    price := 1500, color_family := "Teal", color_hex := "#FFFFF0"
    fabric := "Organza", occasion_tags := "date_night", silhouette := ""
    gender := "female", region_suitability := "", image_url := ""
    product_url := "", stock_status := "in_stock", vibe := "" }

/-- Catalog row: Rose-Gold jewellery in the Magenta colour family. -/
def row_J1 : WardrobeArchitect.Row :=
  { sku := "J1", name := "Statement Ring", category := "Jewelry", brand := ""
    price := 1000, color_family := "Magenta", color_hex := "#FF00FF"
    fabric := "Rose Gold", occasion_tags := "date_night", silhouette := ""
    gender := "female", region_suitability := "", image_url := ""
    product_url := "", stock_status := "in_stock", vibe := "" }

/-- A four-row catalog on which the assembled bundle collects four
distinct non-neutral colour families (Red, Gold, Teal, Magenta). -/
def cat8 : List WardrobeArchitect.Row := [row_M1, row_C1, row_L1, row_J1]

/-- The recommendation produced on `st8`/`cat8`. -/
def c8_rec : FinalRecommendation :=
  ((WardrobeArchitect.build_state llm0 {} st8 cat8).final_recommendation).getD {}

/-- The recommendation produced on the fresh state over `[c1_row]`
(preferred vibe left at its default `"Any"`). -/
def c10_rec : FinalRecommendation :=
  ((WardrobeArchitect.build_state llm0 {} {} [c1_row]).final_recommendation).getD {}

/-! ## Theorems -/

theorem pymod_nonneg (x n : ℚ) (hn : 0 < n) : 0 ≤ pymod x n := by
  unfold pymod
  have h1 : ((⌊x / n⌋ : ℤ) : ℚ) ≤ x / n := Int.floor_le _
  have h2 : n * ((⌊x / n⌋ : ℤ) : ℚ) ≤ n * (x / n) :=
    mul_le_mul_of_nonneg_left h1 (le_of_lt hn)
  have h3 : n * (x / n) = x := by
    field_simp
  linarith

theorem pymod_lt (x n : ℚ) (hn : 0 < n) : pymod x n < n := by
  unfold pymod
  have h1 : x / n < ((⌊x / n⌋ : ℤ) : ℚ) + 1 := Int.lt_floor_add_one _
  have h2 : n * (x / n) < n * (((⌊x / n⌋ : ℤ) : ℚ) + 1) := by
    exact (mul_lt_mul_left hn).mpr h1
  have h3 : n * (x / n) = x := by
    field_simp
  nlinarith


open ColourWheel in
/-- C2. For every seed colour, the harmony operations rotate the seed's
hue by the documented offsets, taken modulo 360 after the rotation —
complementary by +180°, analogous by ±30°, triadic by +120°/+240° and
split-complementary by +150°/+210° — so every resulting hue lies in
`[0, 360)` even for negative intermediates (hue −30° on a seed of 10°
yields 340°), while saturation and lightness are held fixed. -/
theorem c2_hue_rotation_mod_360 (c : HSL) :
    (complementary c = ⟨pymod (c.h + 180) 360, c.s, c.l⟩ ∧
      0 ≤ (complementary c).h ∧ (complementary c).h < 360) ∧
    ((analogous c).1 = ⟨pymod (c.h - 30) 360, c.s, c.l⟩ ∧
      (analogous c).2 = ⟨pymod (c.h + 30) 360, c.s, c.l⟩ ∧
      0 ≤ (analogous c).1.h ∧ (analogous c).1.h < 360 ∧
      0 ≤ (analogous c).2.h ∧ (analogous c).2.h < 360) ∧
    ((triadic c).1 = ⟨pymod (c.h + 120) 360, c.s, c.l⟩ ∧
      (triadic c).2 = ⟨pymod (c.h + 240) 360, c.s, c.l⟩ ∧
      0 ≤ (triadic c).1.h ∧ (triadic c).1.h < 360 ∧
      0 ≤ (triadic c).2.h ∧ (triadic c).2.h < 360) ∧
    ((split_complementary c).1 = ⟨pymod (c.h + 150) 360, c.s, c.l⟩ ∧
      (split_complementary c).2 = ⟨pymod (c.h + 210) 360, c.s, c.l⟩ ∧
      0 ≤ (split_complementary c).1.h ∧ (split_complementary c).1.h < 360 ∧
      0 ≤ (split_complementary c).2.h ∧ (split_complementary c).2.h < 360) ∧
    (analogous ⟨10, 1/2, 1/2⟩).1.h = 340 := by
  refine ⟨⟨rfl, pymod_nonneg _ _ (by norm_num), pymod_lt _ _ (by norm_num)⟩,
    ⟨rfl, rfl, pymod_nonneg _ _ (by norm_num), pymod_lt _ _ (by norm_num),
      pymod_nonneg _ _ (by norm_num), pymod_lt _ _ (by norm_num)⟩,
    ⟨rfl, rfl, pymod_nonneg _ _ (by norm_num), pymod_lt _ _ (by norm_num),
      pymod_nonneg _ _ (by norm_num), pymod_lt _ _ (by norm_num)⟩,
    ⟨rfl, rfl, pymod_nonneg _ _ (by norm_num), pymod_lt _ _ (by norm_num),
      pymod_nonneg _ _ (by norm_num), pymod_lt _ _ (by norm_num)⟩,
    ?_⟩
  show pymod (10 - 30) 360 = 340
  have hf : ⌊(10 - 30 : ℚ) / 360⌋ = -1 := by
    rw [Int.floor_eq_iff]
    norm_num
  unfold pymod
  rw [hf]
  norm_num

namespace ColorEngine

theorem pyDedupAux_of_nodup :
    ∀ (l seen : List String), l.Nodup → (∀ c ∈ l, c ∉ seen) →
      pyDedupAux l seen = l := by
  intro l
  induction l with
  | nil => intro seen _ _; rfl
  | cons c t ih =>
    intro seen hnd hs
    have hc : seen.contains c = false := by
      simp [List.elem_iff, hs c (by simp)]
    unfold pyDedupAux
    rw [hc]
    simp only [Bool.false_eq_true, if_false]
    have ht : pyDedupAux t (c :: seen) = t := by
      apply ih
      · exact hnd.of_cons
      · intro x hx
        simp only [List.mem_cons, not_or]
        refine ⟨?_, hs x (by simp [hx])⟩
        intro hxc
        subst hxc
        exact (List.nodup_cons.mp hnd).1 hx
    rw [ht]

theorem pyDedup_of_nodup (l : List String) (h : l.Nodup) : pyDedup l = l :=
  pyDedupAux_of_nodup l [] h (by simp)

theorem pyDedupAux_sub :
    ∀ (l seen : List String), ∀ c ∈ pyDedupAux l seen, c ∈ l := by
  intro l
  induction l with
  | nil => intro seen c hc; exact absurd hc (by simp [pyDedupAux])
  | cons a t ih =>
    intro seen c hc
    unfold pyDedupAux at hc
    by_cases hm : seen.contains a = true
    · rw [if_pos hm] at hc
      exact List.mem_cons_of_mem _ (ih seen c hc)
    · rw [if_neg hm] at hc
      rcases List.mem_cons.mp hc with h | h
      · exact h ▸ List.mem_cons_self _ _
      · exact List.mem_cons_of_mem _ (ih (a :: seen) c h)

theorem pyDedup_sub (l : List String) : ∀ c ∈ pyDedup l, c ∈ l :=
  pyDedupAux_sub l []

/-- For elements of `l`, membership in `l.filter p` is just `p`. -/
theorem filter_not_contains (l : List String) (p : String → Bool) :
    l.filter (fun c => !((l.filter p).contains c)) = l.filter (fun c => !(p c)) := by
  apply List.filter_congr
  intro a ha
  by_cases hp : p a = true
  · simp [List.elem_iff, List.mem_filter, ha, hp]
  · simp [List.elem_iff, List.mem_filter, hp]

/-- C3 (amended). For every duplicate-free list of colours whose
non-neutral colours number at most 3, `validate_rule_of_three` returns
the list unchanged, marked valid, and with no `dropped` entry (the
compliant branch emits no `"dropped"` key at all; on inputs with
duplicates the returned list is the de-duplicated one, not the input). -/
theorem c3_compliant_input_returned_unchanged (colors : List String)
    (hnd : colors.Nodup)
    (hle : (colors.filter (fun c => !(isNeutralFamily c))).length ≤ 3) :
    (validate_rule_of_three colors).valid = true ∧
    (validate_rule_of_three colors).colors = colors ∧
    (validate_rule_of_three colors).dropped = none := by
  have hd : pyDedup colors = colors := pyDedup_of_nodup colors hnd
  unfold validate_rule_of_three
  simp only [hd, filter_not_contains]
  rw [if_pos hle]
  exact ⟨rfl, rfl, rfl⟩

/-- C3 witness: a concrete compliant, duplicate-free input. -/
theorem c3_compliant_input_returned_unchanged_witness :
    (validate_rule_of_three ["Red", "Black"]).valid = true ∧
    (validate_rule_of_three ["Red", "Black"]).colors = ["Red", "Black"] ∧
    (validate_rule_of_three ["Red", "Black"]).dropped = none :=
  c3_compliant_input_returned_unchanged ["Red", "Black"] (by decide) (by decide)

/-- C3 counterexample: `["Red", "Red"]` contains at most 3 non-neutral
colours, yet `validate_rule_of_three` does not return the list
unchanged (it de-duplicates), and its compliant branch carries no
`dropped` field. -/
theorem c3_duplicates_not_returned_unchanged :
    ((["Red", "Red"] : List String).filter
        (fun c => !(isNeutralFamily c))).length ≤ 3 ∧
    (validate_rule_of_three ["Red", "Red"]).valid = true ∧
    (validate_rule_of_three ["Red", "Red"]).colors = ["Red"] ∧
    (validate_rule_of_three ["Red", "Red"]).colors ≠ ["Red", "Red"] := by
  decide

/-- C4 (amended). For every colour list with more than 3 distinct
non-neutral colours, `validate_rule_of_three` keeps only the first two
distinct non-neutral colours plus the first neutral, drops exactly the
distinct non-neutral colours from the third onwards (in input order),
and reports each dropped colour in the reason message; every dropped
colour is a non-neutral colour of the input, and every distinct
non-neutral input colour is either kept or reported dropped — but
neutral colours beyond the first (and duplicate occurrences) are
omitted without being listed as dropped. -/
theorem c4_overflow_keeps_two_plus_one_neutral (colors : List String)
    (hgt : 3 < ((pyDedup colors).filter (fun c => !(isNeutralFamily c))).length) :
    (validate_rule_of_three colors).valid = false ∧
    (validate_rule_of_three colors).colors =
      ((pyDedup colors).filter (fun c => !(isNeutralFamily c))).take 2 ++
        ((pyDedup colors).filter isNeutralFamily).take 1 ∧
    (validate_rule_of_three colors).dropped =
      some (((pyDedup colors).filter (fun c => !(isNeutralFamily c))).drop 2) ∧
    (∀ c ∈ ((pyDedup colors).filter (fun c => !(isNeutralFamily c))).drop 2,
      c ∈ colors ∧ isNeutralFamily c = false) ∧
    (∀ c ∈ (pyDedup colors).filter (fun c => !(isNeutralFamily c)),
      c ∈ (validate_rule_of_three colors).colors ∨
        c ∈ ((pyDedup colors).filter (fun c => !(isNeutralFamily c))).drop 2) ∧
    (validate_rule_of_three colors).message =
      "⚠ " ++ toString ((pyDedup colors).filter (fun c => !(isNeutralFamily c))).length
        ++ " colors detected. Reducing to 3 for a curated feel. Dropping: "
        ++ String.intercalate ", "
            (((pyDedup colors).filter (fun c => !(isNeutralFamily c))).drop 2) := by
  have hval : validate_rule_of_three colors =
      { valid := false
        colors := ((pyDedup colors).filter (fun c => !(isNeutralFamily c))).take 2 ++
          ((pyDedup colors).filter isNeutralFamily).take 1
        dropped := some (((pyDedup colors).filter (fun c => !(isNeutralFamily c))).drop 2)
        message := "⚠ "
          ++ toString ((pyDedup colors).filter (fun c => !(isNeutralFamily c))).length
          ++ " colors detected. Reducing to 3 for a curated feel. Dropping: "
          ++ String.intercalate ", "
              (((pyDedup colors).filter (fun c => !(isNeutralFamily c))).drop 2) } := by
    unfold validate_rule_of_three
    simp only [filter_not_contains]
    rw [if_neg (by omega)]
  refine ⟨by rw [hval], by rw [hval], by rw [hval], ?_, ?_, by rw [hval]⟩
  · intro c hc
    have hmem : c ∈ (pyDedup colors).filter (fun c => !(isNeutralFamily c)) :=
      List.mem_of_mem_drop hc
    have := List.mem_filter.mp hmem
    exact ⟨pyDedup_sub colors c this.1, by simpa using this.2⟩
  · intro c hc
    rw [hval]
    by_cases hk : c ∈ ((pyDedup colors).filter (fun c => !(isNeutralFamily c))).take 2
    · exact Or.inl (by simp [List.mem_append, hk])
    · right
      rcases List.mem_append.mp
          (((List.take_append_drop 2 ((pyDedup colors).filter
            (fun c => !(isNeutralFamily c)))).symm ▸ hc) :
            c ∈ ((pyDedup colors).filter (fun c => !(isNeutralFamily c))).take 2 ++
              ((pyDedup colors).filter (fun c => !(isNeutralFamily c))).drop 2) with h | h
      · exact absurd h hk
      · exact h

/-- C4 witness: four distinct non-neutral colours. -/
theorem c4_overflow_keeps_two_plus_one_neutral_witness :
    (validate_rule_of_three ["Red", "Magenta", "Teal", "Coral"]).valid = false ∧
    (validate_rule_of_three ["Red", "Magenta", "Teal", "Coral"]).colors =
      ["Red", "Magenta"] ∧
    (validate_rule_of_three ["Red", "Magenta", "Teal", "Coral"]).dropped =
      some ["Teal", "Coral"] := by
  have h := c4_overflow_keeps_two_plus_one_neutral
    ["Red", "Magenta", "Teal", "Coral"] (by decide)
  refine ⟨h.1, ?_, ?_⟩
  · rw [h.2.1]; decide
  · rw [h.2.2.1]; decide

/-- C4 counterexample: on
`["Red", "Magenta", "Teal", "Coral", "Black", "White"]` the code keeps
only two non-neutral colours (not three) and only the first neutral:
the neutral `"White"` disappears from the output without being listed
as dropped, refuting both "retains all neutral colours" and "kept plus
dropped together account for the whole input". -/
theorem c4_white_disappears_unreported :
    "White" ∈ (["Red", "Magenta", "Teal", "Coral", "Black", "White"] : List String) ∧
    (validate_rule_of_three
        ["Red", "Magenta", "Teal", "Coral", "Black", "White"]).valid = false ∧
    (validate_rule_of_three
        ["Red", "Magenta", "Teal", "Coral", "Black", "White"]).colors =
      ["Red", "Magenta", "Black"] ∧
    (validate_rule_of_three
        ["Red", "Magenta", "Teal", "Coral", "Black", "White"]).dropped =
      some ["Teal", "Coral"] ∧
    "White" ∉ (validate_rule_of_three
        ["Red", "Magenta", "Teal", "Coral", "Black", "White"]).colors ∧
    "White" ∉ (["Teal", "Coral"] : List String) := by
  decide

end ColorEngine


namespace FeedbackLoop

theorem applyAction_core (a fl : String) (s : StyleState) :
    (applyAction a fl s).iteration = s.iteration ∧
    (applyAction a fl s).rejected_skus = s.rejected_skus ∧
    (applyAction a fl s).final_recommendation = s.final_recommendation := by
  unfold applyAction swap_lighter shift_neutral reduce_budget shift_bold
    change_color shift_traditional shift_modern full_re_curate
  split_ifs <;> cases s.trend_brief <;> (try dsimp only) <;> first
    | exact ⟨rfl, rfl, rfl⟩
    | (split_ifs <;> exact ⟨rfl, rfl, rfl⟩)

theorem markRejected_prefix :
    ∀ (items : List OutfitItem) (acc : List String), acc <+: markRejected acc items := by
  intro items
  induction items with
  | nil => intro acc; exact List.prefix_refl _
  | cons i t ih =>
    intro acc
    have h1 : markRejected acc (i :: t) =
        markRejected (if acc.contains i.sku then acc else acc ++ [i.sku]) t := by
      simp [markRejected]
    rw [h1]
    refine List.IsPrefix.trans ?_ (ih _)
    split_ifs
    · exact List.prefix_refl _
    · exact List.prefix_append _ _

theorem mark_rejected_step_core (s : StyleState) :
    (mark_rejected_step s).iteration = s.iteration ∧
    s.rejected_skus <+: (mark_rejected_step s).rejected_skus := by
  unfold mark_rejected_step
  cases s.final_recommendation with
  | none => exact ⟨rfl, List.prefix_refl _⟩
  | some rec => exact ⟨rfl, markRejected_prefix rec.outfit_items s.rejected_skus⟩

/-- C6 (amended). Every `FeedbackHandler.process` call — in particular a
repeated call with the same unrecognised feedback — increments the
iteration counter by exactly one, and never shrinks the rejected-item
blacklist: the prior blacklist is a prefix of the new one.  (Strict
growth does not hold in general: it occurs only when a recommendation
with not-yet-blacklisted items is present, and `process` itself clears
`final_recommendation`, so a second call without an intervening
re-curation adds nothing.) -/
theorem c6_refine_increments_iteration_blacklist_monotone
    (f : String) (s : StyleState) :
    (process f s).1.iteration = s.iteration + 1 ∧
    s.rejected_skus <+: (process f s).1.rejected_skus := by
  obtain ⟨hit, hrej, -⟩ := applyAction_core (classify (pyStrip (pyToLower f))).action
    (pyStrip (pyToLower f)) { s with feedback_history := s.feedback_history ++ [f] }
  obtain ⟨mit, mrej⟩ := mark_rejected_step_core (applyAction
    (classify (pyStrip (pyToLower f))).action (pyStrip (pyToLower f))
    { s with feedback_history := s.feedback_history ++ [f] })
  rw [hrej] at mrej
  constructor
  · show (mark_rejected_step (applyAction (classify (pyStrip (pyToLower f))).action
        (pyStrip (pyToLower f))
        { s with feedback_history := s.feedback_history ++ [f] })).iteration + 1 =
      s.iteration + 1
    rw [mit, hit]
  · exact mrej

/-- C6 witness: the theorem applied at a concrete state and feedback. -/
theorem c6_refine_increments_iteration_blacklist_monotone_witness :
    (process "xyzzy qux" ({} : StyleState)).1.iteration = 0 + 1 ∧
    ([] : List String) <+: (process "xyzzy qux" ({} : StyleState)).1.rejected_skus :=
  c6_refine_increments_iteration_blacklist_monotone "xyzzy qux" {}

/-- C6 counterexample: two successive `process` calls with the same
unrecognised feedback text `"xyzzy qux"` (no feedback pattern matches it)
on a fresh state do increment the iteration counter twice, but the
rejected-item blacklist stays empty — it does not strictly grow. -/
theorem c6_blacklist_does_not_strictly_grow :
    (FEEDBACK_PATTERNS.all (fun p =>
      p.keywords.all (fun k => !(pyIn k "xyzzy qux"))) = true) ∧
    c6_state1.iteration = 1 ∧ c6_state2.iteration = 2 ∧
    c6_state1.rejected_skus = [] ∧ c6_state2.rejected_skus = [] := by
  decide

/-- C7 (amended). The feedback classifier is closed over its action set
with full-rebuild as the fallback for unmatched input: any text matching
no pattern keyword is classified as `full_re_curate`.  A feedback phrase
naming a colour outside the fixed vocabulary extracts no colour
(`_extract_color` returns `""`), and the colour-change action is then a
no-op on the state — the engine does not guess a colour, but neither
does it fall back to `full_re_curate` (the classified action remains
`change_primary_color`). -/
theorem c7_classifier_fallback (text : String) (s : StyleState)
    (hun : ∀ p ∈ FEEDBACK_PATTERNS, ∀ k ∈ p.keywords, pyIn k text = false)
    (hcol : extract_color text = "") :
    (classify text).action = "full_re_curate" ∧
    change_color s (extract_color text) = s := by
  constructor
  · unfold classify
    have hnone : FEEDBACK_PATTERNS.find? (fun p =>
        p.keywords.any (fun k => pyIn k text)) = none := by
      rw [List.find?_eq_none]
      intro p hp
      simp only [List.any_eq_true, not_exists, not_and, Bool.not_eq_true]
      intro k hk
      exact hun p hp k hk
    rw [hnone]
    decide
  · rw [hcol]
    unfold change_color
    cases s.trend_brief <;> simp

/-- C7 witness: concrete unmatched feedback, and a concrete colour-change
feedback naming the out-of-vocabulary colour "turquoise". -/
theorem c7_classifier_fallback_witness :
    (classify "xyzzy qux blorp").action = "full_re_curate" ∧
    change_color ({} : StyleState) (extract_color "xyzzy qux blorp") = ({} : StyleState) :=
  c7_classifier_fallback "xyzzy qux blorp" {} (by decide) (by decide)

/-- C7 counterexample: `"make it turquoise"` names a colour outside the
fixed vocabulary, yet the applied action is `change_primary_color` (a
no-op colour change), not the claimed `full_re_curate` fallback. -/
theorem c7_unknown_colour_not_full_rebuild :
    "turquoise" ∉ COLOR_NAMES ∧
    pyIn "turquoise" "make it turquoise" = true ∧
    (classify "make it turquoise").action = "change_primary_color" ∧
    (classify "make it turquoise").action ≠ "full_re_curate" ∧
    extract_color "make it turquoise" = "" := by
  decide

end FeedbackLoop

/-- C9 (amended). For every curation state, `to_dashboard_format`
returns a flat snapshot — every value is a plain string or number, with
no nested catalog objects — whose keys are exactly `occasion`,
`sub_occasion`, `budget`, `gender`, `region`, `style_dna` (the style
archetype), `trend_alignment_score`, `availability`, `palette` (the
palette strategy), `outfit_count` (the item count), `iteration` and
`the_why`; no confidence field is exported. -/
theorem c9_dashboard_flat_with_fixed_keys (st : StyleState) :
    (st.to_dashboard_format.map Prod.fst =
      ["occasion", "sub_occasion", "budget", "gender", "region", "style_dna",
       "trend_alignment_score", "availability", "palette", "outfit_count",
       "iteration", "the_why"]) ∧
    (∀ kv ∈ st.to_dashboard_format,
      (∃ v, kv.2 = DashValue.s v) ∨ (∃ q, kv.2 = DashValue.n q)) := by
  refine ⟨rfl, ?_⟩
  intro kv _
  cases h : kv.2 with
  | s v => exact Or.inl ⟨v, rfl⟩
  | n q => exact Or.inr ⟨q, rfl⟩

/-- C9 counterexample: even on a state whose recommendation carries a
non-zero confidence score, the dashboard export contains no
`confidence` (or `confidence_score`) field. -/
theorem c9_no_confidence_in_export :
    c9_state.final_recommendation.map FinalRecommendation.confidence_score = some 77 ∧
    "confidence" ∉ c9_state.to_dashboard_format.map Prod.fst ∧
    "confidence_score" ∉ c9_state.to_dashboard_format.map Prod.fst := by
  decide



namespace WardrobeArchitect

theorem band_left {a b : Bool} (h : (a && b) = true) : a = true := by
  simp only [Bool.and_eq_true] at h
  exact h.1

theorem insertDesc_mem (r x : Row) (l : List Row) (h : x ∈ insertDesc r l) :
    x = r ∨ x ∈ l := by
  induction l with
  | nil => simpa [insertDesc] using h
  | cons a t ih =>
    unfold insertDesc at h
    split_ifs at h
    · rcases List.mem_cons.mp h with h1 | h2
      · exact Or.inl h1
      · exact Or.inr h2
    · rcases List.mem_cons.mp h with h1 | h2
      · exact Or.inr (h1 ▸ List.mem_cons_self _ _)
      · rcases ih h2 with h3 | h4
        · exact Or.inl h3
        · exact Or.inr (List.mem_cons_of_mem _ h4)

theorem sortByPriceDesc_mem (l : List Row) (x : Row)
    (h : x ∈ sortByPriceDesc l) : x ∈ l := by
  induction l with
  | nil => simpa [sortByPriceDesc] using h
  | cons a t ih =>
    have h1 : x ∈ insertDesc a (sortByPriceDesc t) := h
    rcases insertDesc_mem a x _ h1 with h2 | h3
    · exact h2 ▸ List.mem_cons_self _ _
    · exact List.mem_cons_of_mem _ (ih h3)

theorem runQuery_sound (catalog : List Row) (cond : Row → Bool) (r : Row)
    (h : r ∈ runQuery catalog cond) : r ∈ catalog ∧ cond r = true := by
  unfold runQuery at h
  have h1 := List.mem_of_mem_take h
  have h2 := sortByPriceDesc_mem _ _ h1
  exact ⟨(List.mem_filter.mp h2).1, (List.mem_filter.mp h2).2⟩

theorem execute_vibe_query_sound (catalog : List Row) (b : Row → Bool)
    (v : String) (r : Row) (h : r ∈ (execute_vibe_query catalog b v).1) :
    r ∈ catalog ∧ b r = true := by
  unfold execute_vibe_query at h
  split_ifs at h <;> simp only at h
  · have := runQuery_sound _ _ _ h
    exact ⟨this.1, (band_left this.2)⟩
  · exact runQuery_sound _ _ _ h
  · exact runQuery_sound _ _ _ h

theorem evq_head_sound (catalog : List Row) (b : Row → Bool) (v : String)
    (r : Row) (l : List Row) (mv : Bool)
    (heq : execute_vibe_query catalog b v = (r :: l, mv)) :
    r ∈ catalog ∧ b r = true := by
  apply execute_vibe_query_sound catalog b v r
  rw [heq]
  exact List.mem_cons_self _ _

theorem main_piece_base_price (occ gen : String) (bud : ℚ)
    (rej : List String) (pref : String) (r : Row)
    (h : main_piece_base occ gen bud rej pref r = true) : r.price ≤ bud := by
  unfold main_piece_base at h
  simp only [Bool.and_eq_true, decide_eq_true_eq] at h
  exact h.1.1.1.2

theorem piece_base_price (category occ gen : String) (bud : ℚ)
    (rej : List String) (pref : String) (r : Row)
    (h : piece_base category occ gen bud rej pref r = true) : r.price ≤ bud := by
  unfold piece_base at h
  simp only [Bool.and_eq_true, decide_eq_true_eq] at h
  exact h.1.1.1.2

theorem layer_base_price (occ gen : String) (bud : ℚ) (rej : List String)
    (r : Row) (h : layer_base occ gen bud rej r = true) : r.price ≤ bud := by
  unfold layer_base at h
  simp only [Bool.and_eq_true, decide_eq_true_eq] at h
  exact h.1.1.2

theorem jewelry_base_price (occ gen : String) (bud : ℚ) (rej : List String)
    (pref : String) (r : Row)
    (h : jewelry_base occ gen bud rej pref r = true) : r.price ≤ bud := by
  unfold jewelry_base at h
  simp only [Bool.and_eq_true, decide_eq_true_eq] at h
  exact h.1.1.1.2

theorem footwear_base_price (occ gen : String) (bud : ℚ) (rej : List String)
    (r : Row) (h : footwear_base occ gen bud rej r = true) : r.price ≤ bud := by
  unfold footwear_base at h
  simp only [Bool.and_eq_true, decide_eq_true_eq] at h
  exact h.1.1.2

theorem accessory_base_price (occ gen : String) (bud : ℚ) (rej : List String)
    (pref : String) (r : Row)
    (h : accessory_base occ gen bud rej pref r = true) : r.price ≤ bud := by
  unfold accessory_base at h
  simp only [Bool.and_eq_true, decide_eq_true_eq] at h
  exact h.1.1.1.2

theorem find_main_piece_some (cat : List Row) (occ gen : String) (bud : ℚ)
    (tc uc rej : List String) (pref vibe : String) (r : Row)
    (h : (find_main_piece cat occ gen bud tc uc rej pref vibe).1 = some r) :
    r ∈ cat ∧ r.price ≤ bud := by
  unfold find_main_piece at h
  split at h
  next r' l mv heq =>
    simp only [Option.some.injEq] at h
    subst h
    split_ifs at heq
    · exact absurd heq (by simp)
    · have := evq_head_sound _ _ _ _ _ _ heq
      exact ⟨this.1, main_piece_base_price _ _ _ _ _ _
        (band_left this.2)⟩
  next heq1 =>
    split at h
    next r' l mv heq =>
      simp only [Option.some.injEq] at h
      subst h
      split_ifs at heq
      · exact absurd heq (by simp)
      · have := evq_head_sound _ _ _ _ _ _ heq
        exact ⟨this.1, main_piece_base_price _ _ _ _ _ _
          (band_left this.2)⟩
    next heq2 =>
      split at h
      next r' l mv heq =>
        simp only [Option.some.injEq] at h
        subst h
        have := evq_head_sound _ _ _ _ _ _ heq
        exact ⟨this.1, main_piece_base_price _ _ _ _ _ _ this.2⟩
      next heq3 => exact absurd h (by simp)

theorem find_piece_some (cat : List Row) (category occ gen : String)
    (bud : ℚ) (colors rej : List String) (pref vibe : String) (r : Row)
    (h : (find_piece cat category occ gen bud colors rej pref vibe).1 = some r) :
    r ∈ cat ∧ r.price ≤ bud := by
  unfold find_piece at h
  split at h
  next r' l mv heq =>
    simp only [Option.some.injEq] at h
    subst h
    split_ifs at heq
    · exact absurd heq (by simp)
    · have := evq_head_sound _ _ _ _ _ _ heq
      exact ⟨this.1, piece_base_price _ _ _ _ _ _ _
        (band_left this.2)⟩
  next heq1 =>
    split at h
    next r' l mv heq =>
      simp only [Option.some.injEq] at h
      subst h
      have := evq_head_sound _ _ _ _ _ _ heq
      exact ⟨this.1, piece_base_price _ _ _ _ _ _ _ this.2⟩
    next heq2 => exact absurd h (by simp)

theorem find_layer_some (cat : List Row) (occ gen : String) (bud : ℚ)
    (colors rej : List String) (vibe : String) (r : Row)
    (h : (find_layer cat occ gen bud colors rej vibe).1 = some r) :
    r ∈ cat ∧ r.price ≤ bud := by
  unfold find_layer at h
  split at h
  next r' l mv heq =>
    simp only [Option.some.injEq] at h
    subst h
    split_ifs at heq
    · exact absurd heq (by simp)
    · have := evq_head_sound _ _ _ _ _ _ heq
      exact ⟨this.1, layer_base_price _ _ _ _ _
        (band_left this.2)⟩
  next heq1 =>
    split at h
    next r' l mv heq =>
      simp only [Option.some.injEq] at h
      subst h
      have := evq_head_sound _ _ _ _ _ _ heq
      exact ⟨this.1, layer_base_price _ _ _ _ _ this.2⟩
    next heq2 => exact absurd h (by simp)

theorem find_jewelry_some (cat : List Row) (occ gen metal : String)
    (bud : ℚ) (rej : List String) (pref vibe : String) (r : Row)
    (h : (find_jewelry cat occ gen metal bud rej pref vibe).1 = some r) :
    r ∈ cat ∧ r.price ≤ bud := by
  unfold find_jewelry at h
  split at h
  next r' l mv heq =>
    simp only [Option.some.injEq] at h
    subst h
    have := evq_head_sound _ _ _ _ _ _ heq
    exact ⟨this.1, jewelry_base_price _ _ _ _ _ _
      (band_left this.2)⟩
  next heq1 =>
    split at h
    next r' l mv heq =>
      simp only [Option.some.injEq] at h
      subst h
      have := evq_head_sound _ _ _ _ _ _ heq
      exact ⟨this.1, jewelry_base_price _ _ _ _ _ _ this.2⟩
    next heq2 => exact absurd h (by simp)

theorem find_footwear_some (cat : List Row) (occ gen : String) (bud : ℚ)
    (rej : List String) (vibe : String) (r : Row)
    (h : (find_footwear cat occ gen bud rej vibe).1 = some r) :
    r ∈ cat ∧ r.price ≤ bud := by
  unfold find_footwear at h
  split at h
  next r' l mv heq =>
    simp only [Option.some.injEq] at h
    subst h
    have := evq_head_sound _ _ _ _ _ _ heq
    exact ⟨this.1, footwear_base_price _ _ _ _ _ this.2⟩
  next heq1 => exact absurd h (by simp)

theorem find_accessory_some (cat : List Row) (occ gen : String) (bud : ℚ)
    (accents rej : List String) (pref vibe : String) (r : Row)
    (h : (find_accessory cat occ gen bud accents rej pref vibe).1 = some r) :
    r ∈ cat ∧ r.price ≤ bud := by
  unfold find_accessory at h
  split at h
  next r' l mv heq =>
    simp only [Option.some.injEq] at h
    subst h
    split_ifs at heq
    · exact absurd heq (by simp)
    · have := evq_head_sound _ _ _ _ _ _ heq
      exact ⟨this.1, accessory_base_price _ _ _ _ _ _
        (band_left this.2)⟩
  next heq1 =>
    split at h
    next r' l mv heq =>
      simp only [Option.some.injEq] at h
      subst h
      have := evq_head_sound _ _ _ _ _ _ heq
      exact ⟨this.1, accessory_base_price _ _ _ _ _ _ this.2⟩
    next heq2 => exact absurd h (by simp)

theorem eff_budget_nonneg (st : StyleState) (hb : 0 ≤ st.budget) :
    0 ≤ eff_budget st := by
  unfold eff_budget
  split_ifs
  · norm_num
  · exact hb

theorem remaining1_bounds (gd : Guidance) (st : StyleState) (cat : List Row)
    (hb : 0 ≤ st.budget) (hc : ∀ r ∈ cat, 0 ≤ r.price) :
    remaining1_of gd st cat ≤ eff_budget st ∧ 0 ≤ remaining1_of gd st cat := by
  unfold remaining1_of
  cases hm : (main_of gd st cat).1 with
  | none =>
    simp only [hm, sub_zero]
    exact ⟨le_refl _, eff_budget_nonneg st hb⟩
  | some m =>
    simp only [hm]
    obtain ⟨hmem, hple⟩ := find_main_piece_some cat (eff_occasion st)
      (eff_gender st) (eff_budget st) (trending_of gd st) (user_colors_of st)
      st.rejected_skus st.preferred_clothing_type st.preferred_vibe m hm
    have h0 := hc m hmem
    constructor <;> linarith

theorem remaining_step (prev next : ℚ) (o : Option Row) (cat : List Row)
    (hdef : next = prev - (match o with | some r => r.price | none => 0))
    (hprev : 0 ≤ prev)
    (hsound : ∀ r, o = some r → r ∈ cat ∧ r.price ≤ prev)
    (hc : ∀ r ∈ cat, 0 ≤ r.price) :
    next ≤ prev ∧ 0 ≤ next := by
  subst hdef
  cases ho : o with
  | none => simp only [ho, sub_zero]; exact ⟨le_refl _, hprev⟩
  | some r =>
    simp only [ho]
    obtain ⟨hmem, hple⟩ := hsound r ho
    have h0 := hc r hmem
    constructor <;> linarith

theorem comp_of_some (gd : Guidance) (st : StyleState) (cat : List Row)
    (c : Row) (h : (comp_of gd st cat).1 = some c) :
    c ∈ cat ∧ c.price ≤ remaining1_of gd st cat := by
  unfold comp_of at h
  split at h
  next m hm =>
    split_ifs at h
    all_goals first
      | exact find_piece_some _ _ _ _ _ _ _ _ _ _ h
      | simp at h
  next hm => simp at h

theorem layer_of_some (gd : Guidance) (st : StyleState) (cat : List Row)
    (l : Row) (h : (layer_of gd st cat).1 = some l) :
    l ∈ cat ∧ l.price ≤ remaining2_of gd st cat :=
  find_layer_some _ _ _ _ _ _ _ _ h

theorem jewelry_of_some (gd : Guidance) (st : StyleState) (cat : List Row)
    (j : Row) (h : (jewelry_of gd st cat).1 = some j) :
    j ∈ cat ∧ j.price ≤ remaining3_of gd st cat :=
  find_jewelry_some _ _ _ _ _ _ _ _ _ h

theorem footwear_of_some (gd : Guidance) (st : StyleState) (cat : List Row)
    (f : Row) (h : (footwear_of gd st cat).1 = some f) :
    f ∈ cat ∧ f.price ≤ remaining4_of gd st cat :=
  find_footwear_some _ _ _ _ _ _ _ h

theorem accessory_of_some (gd : Guidance) (st : StyleState) (cat : List Row)
    (a : Row) (h : (accessory_of gd st cat).1 = some a) :
    a ∈ cat ∧ a.price ≤ remaining5_of gd st cat :=
  find_accessory_some _ _ _ _ _ _ _ _ _ h

theorem pair_snd_if (c : Prop) [Decidable c] (x y : List Row) :
    (if c then (x, (false : Bool)) else (y, false)).2 = false := by
  split_ifs <;> rfl

theorem execute_vibe_query_any (cat : List Row) (b : Row → Bool) :
    execute_vibe_query cat b "Any" = (runQuery cat b, false) := by
  unfold execute_vibe_query
  rw [if_neg (by decide)]

theorem snd_false_of_eq {p : List Row × Bool} {r : Row} {l : List Row}
    {mv : Bool} (hp : p.2 = false) (heq : p = (r :: l, mv)) : mv = false := by
  rw [heq] at hp
  exact hp

theorem find_main_piece_any (cat : List Row) (occ gen : String) (bud : ℚ)
    (tc uc rej : List String) (pref : String) :
    (find_main_piece cat occ gen bud tc uc rej pref "Any").2 = false := by
  unfold find_main_piece
  split
  next r l mv heq =>
    exact snd_false_of_eq (by simp only [execute_vibe_query_any]; exact pair_snd_if _ _ _) heq
  next heq1 =>
    split
    next r l mv heq =>
      exact snd_false_of_eq (by simp only [execute_vibe_query_any]; exact pair_snd_if _ _ _) heq
    next heq2 =>
      split
      next r l mv heq =>
        exact snd_false_of_eq (by rw [execute_vibe_query_any]) heq
      next heq3 => rfl

theorem find_piece_any (cat : List Row) (category occ gen : String)
    (bud : ℚ) (colors rej : List String) (pref : String) :
    (find_piece cat category occ gen bud colors rej pref "Any").2 = false := by
  unfold find_piece
  split
  next r l mv heq =>
    exact snd_false_of_eq (by simp only [execute_vibe_query_any]; exact pair_snd_if _ _ _) heq
  next heq1 =>
    split
    next r l mv heq =>
      exact snd_false_of_eq (by rw [execute_vibe_query_any]) heq
    next heq2 => rfl

theorem find_layer_any (cat : List Row) (occ gen : String) (bud : ℚ)
    (colors rej : List String) :
    (find_layer cat occ gen bud colors rej "Any").2 = false := by
  unfold find_layer
  split
  next r l mv heq =>
    exact snd_false_of_eq (by simp only [execute_vibe_query_any]; exact pair_snd_if _ _ _) heq
  next heq1 =>
    split
    next r l mv heq =>
      exact snd_false_of_eq (by rw [execute_vibe_query_any]) heq
    next heq2 => rfl

theorem find_jewelry_any (cat : List Row) (occ gen metal : String)
    (bud : ℚ) (rej : List String) (pref : String) :
    (find_jewelry cat occ gen metal bud rej pref "Any").2 = false := by
  unfold find_jewelry
  split
  next r l mv heq =>
    exact snd_false_of_eq (by rw [execute_vibe_query_any]) heq
  next heq1 =>
    split
    next r l mv heq =>
      exact snd_false_of_eq (by rw [execute_vibe_query_any]) heq
    next heq2 => rfl

theorem find_footwear_any (cat : List Row) (occ gen : String) (bud : ℚ)
    (rej : List String) :
    (find_footwear cat occ gen bud rej "Any").2 = false := by
  unfold find_footwear
  split
  next r l mv heq =>
    exact snd_false_of_eq (by rw [execute_vibe_query_any]) heq
  next heq1 => rfl

theorem find_accessory_any (cat : List Row) (occ gen : String) (bud : ℚ)
    (accents rej : List String) (pref : String) :
    (find_accessory cat occ gen bud accents rej pref "Any").2 = false := by
  unfold find_accessory
  split
  next r l mv heq =>
    exact snd_false_of_eq (by simp only [execute_vibe_query_any]; exact pair_snd_if _ _ _) heq
  next heq1 =>
    split
    next r l mv heq =>
      exact snd_false_of_eq (by rw [execute_vibe_query_any]) heq
    next heq2 => rfl

theorem main_of_any (gd : Guidance) (st : StyleState) (cat : List Row)
    (hv : st.preferred_vibe = "Any") : (main_of gd st cat).2 = false := by
  unfold main_of
  rw [hv]
  exact find_main_piece_any _ _ _ _ _ _ _ _

theorem comp_of_any (gd : Guidance) (st : StyleState) (cat : List Row)
    (hv : st.preferred_vibe = "Any") : (comp_of gd st cat).2 = false := by
  unfold comp_of
  split
  next m hm =>
    split_ifs
    · rfl
    · rw [hv]
      exact find_piece_any _ _ _ _ _ _ _ _
  next hm => rfl

theorem layer_of_any (gd : Guidance) (st : StyleState) (cat : List Row)
    (hv : st.preferred_vibe = "Any") : (layer_of gd st cat).2 = false := by
  unfold layer_of
  rw [hv]
  exact find_layer_any _ _ _ _ _ _

theorem jewelry_of_any (gd : Guidance) (st : StyleState) (cat : List Row)
    (hv : st.preferred_vibe = "Any") : (jewelry_of gd st cat).2 = false := by
  unfold jewelry_of
  rw [hv]
  exact find_jewelry_any _ _ _ _ _ _ _

theorem footwear_of_any (gd : Guidance) (st : StyleState) (cat : List Row)
    (hv : st.preferred_vibe = "Any") : (footwear_of gd st cat).2 = false := by
  unfold footwear_of
  rw [hv]
  exact find_footwear_any _ _ _ _ _

theorem accessory_of_any (gd : Guidance) (st : StyleState) (cat : List Row)
    (hv : st.preferred_vibe = "Any") : (accessory_of gd st cat).2 = false := by
  unfold accessory_of
  rw [hv]
  exact find_accessory_any _ _ _ _ _ _ _

theorem vibe_hits_of_any (gd : Guidance) (st : StyleState) (cat : List Row)
    (hv : st.preferred_vibe = "Any") : vibe_hits_of gd st cat = 0 := by
  have h1 := main_of_any gd st cat hv
  have h2 := comp_of_any gd st cat hv
  have h3 := layer_of_any gd st cat hv
  have h4 := jewelry_of_any gd st cat hv
  have h5 := footwear_of_any gd st cat hv
  have h6 := accessory_of_any gd st cat hv
  unfold vibe_hits_of
  rcases hq1 : main_of gd st cat with ⟨o1, b1⟩
  rcases hq2 : comp_of gd st cat with ⟨o2, b2⟩
  rcases hq3 : layer_of gd st cat with ⟨o3, b3⟩
  rcases hq4 : jewelry_of gd st cat with ⟨o4, b4⟩
  rcases hq5 : footwear_of gd st cat with ⟨o5, b5⟩
  rcases hq6 : accessory_of gd st cat with ⟨o6, b6⟩
  rw [hq1] at h1
  rw [hq2] at h2
  rw [hq3] at h3
  rw [hq4] at h4
  rw [hq5] at h5
  rw [hq6] at h6
  simp only at h1 h2 h3 h4 h5 h6
  subst h1 h2 h3 h4 h5 h6
  cases o1 <;> cases o2 <;> cases o3 <;> cases o4 <;> cases o5 <;> cases o6 <;> rfl

theorem curate_ok (g : List String)
    (llm : List OutfitItem → String → String → List String → String → String)
    (gd : Guidance) (st : StyleState) (cat : List Row) (out : StyleState)
    (h : curate g llm gd st cat = .ok out) :
    out = build_state llm gd st cat := by
  unfold curate at h
  split at h
  next m hm =>
    split_ifs at h
    all_goals first
      | (injection h with h2; exact h2.symm)
      | simp at h
  next hm =>
    injection h with h2
    exact h2.symm

/-- C1 (code evaluated at the failing input).  The claim says `curate`
is total — in particular that it completes when a main piece is found so
that secondary-colour derivation runs — but
`wardrobe_architect_agent.py` calls `get_secondary_colors` without
importing it: the name is not among the module's globals, so the very
first run that finds a main piece raises `NameError`.  On an empty
catalog (no main piece) `curate` does complete. -/
theorem c1_name_error_when_main_piece_found :
    "get_secondary_colors" ∉ wardrobe_architect_globals ∧
    curate wardrobe_architect_globals llm0 {} {} [c1_row] =
      .error (.nameError "get_secondary_colors") ∧
    (curate wardrobe_architect_globals llm0 {} {} []).toOption.isSome = true := by
  refine ⟨by decide, ?_, ?_⟩
  · rfl
  · rfl

/-- C5. During a curation run that completes, the remaining budget is
non-increasing across the fixed slot order (main garment, complementary
piece, layer, jewellery, footwear, accessory) and never negative, and
every filled slot's item price is at most the remaining budget at the
moment that slot was filled (a slot whose candidates all exceed the
remaining budget is left unfilled: its query has the price ceiling in
its `WHERE` clause).  Assumes a non-negative state budget and
non-negative catalog prices. -/
theorem c5_budget_monotone_never_negative (g : List String)
    (llm : List OutfitItem → String → String → List String → String → String)
    (gd : Guidance) (st : StyleState) (cat : List Row) (out : StyleState)
    (hb : 0 ≤ st.budget) (hc : ∀ r ∈ cat, 0 ≤ r.price)
    (hok : curate g llm gd st cat = .ok out) :
    (remaining1_of gd st cat ≤ eff_budget st ∧
     remaining2_of gd st cat ≤ remaining1_of gd st cat ∧
     remaining3_of gd st cat ≤ remaining2_of gd st cat ∧
     remaining4_of gd st cat ≤ remaining3_of gd st cat ∧
     remaining5_of gd st cat ≤ remaining4_of gd st cat ∧
     remaining6_of gd st cat ≤ remaining5_of gd st cat) ∧
    (0 ≤ remaining1_of gd st cat ∧ 0 ≤ remaining2_of gd st cat ∧
     0 ≤ remaining3_of gd st cat ∧ 0 ≤ remaining4_of gd st cat ∧
     0 ≤ remaining5_of gd st cat ∧ 0 ≤ remaining6_of gd st cat) ∧
    ((∀ m, (main_of gd st cat).1 = some m → m.price ≤ eff_budget st) ∧
     (∀ c, (comp_of gd st cat).1 = some c →
        c.price ≤ remaining1_of gd st cat) ∧
     (∀ l, (layer_of gd st cat).1 = some l →
        l.price ≤ remaining2_of gd st cat) ∧
     (∀ j, (jewelry_of gd st cat).1 = some j →
        j.price ≤ remaining3_of gd st cat) ∧
     (∀ f, (footwear_of gd st cat).1 = some f →
        f.price ≤ remaining4_of gd st cat) ∧
     (∀ a, (accessory_of gd st cat).1 = some a →
        a.price ≤ remaining5_of gd st cat)) := by
  have h1 := remaining1_bounds gd st cat hb hc
  have h2 := remaining_step (remaining1_of gd st cat) (remaining2_of gd st cat)
    (comp_of gd st cat).1 cat rfl h1.2 (fun r hr => comp_of_some gd st cat r hr) hc
  have h3 := remaining_step (remaining2_of gd st cat) (remaining3_of gd st cat)
    (layer_of gd st cat).1 cat rfl h2.2 (fun r hr => layer_of_some gd st cat r hr) hc
  have h4 := remaining_step (remaining3_of gd st cat) (remaining4_of gd st cat)
    (jewelry_of gd st cat).1 cat rfl h3.2
    (fun r hr => jewelry_of_some gd st cat r hr) hc
  have h5 := remaining_step (remaining4_of gd st cat) (remaining5_of gd st cat)
    (footwear_of gd st cat).1 cat rfl h4.2
    (fun r hr => footwear_of_some gd st cat r hr) hc
  have h6 := remaining_step (remaining5_of gd st cat) (remaining6_of gd st cat)
    (accessory_of gd st cat).1 cat rfl h5.2
    (fun r hr => accessory_of_some gd st cat r hr) hc
  refine ⟨⟨h1.1, h2.1, h3.1, h4.1, h5.1, h6.1⟩,
    ⟨h1.2, h2.2, h3.2, h4.2, h5.2, h6.2⟩,
    ⟨?_, ?_, ?_, ?_, ?_, ?_⟩⟩
  · intro m hm
    exact (find_main_piece_some cat (eff_occasion st) (eff_gender st)
      (eff_budget st) (trending_of gd st) (user_colors_of st) st.rejected_skus
      st.preferred_clothing_type st.preferred_vibe m hm).2
  · intro c hcp
    exact (comp_of_some gd st cat c hcp).2
  · intro l hl
    exact (layer_of_some gd st cat l hl).2
  · intro j hj
    exact (jewelry_of_some gd st cat j hj).2
  · intro f hf
    exact (footwear_of_some gd st cat f hf).2
  · intro a ha
    exact (accessory_of_some gd st cat a ha).2

/-- C5 witness: the budget invariants instantiated on a concrete
completed run over the four-row catalog. -/
theorem c5_budget_monotone_never_negative_witness :
    (remaining1_of {} st8 cat8 ≤ eff_budget st8 ∧
     remaining2_of {} st8 cat8 ≤ remaining1_of {} st8 cat8 ∧
     remaining3_of {} st8 cat8 ≤ remaining2_of {} st8 cat8 ∧
     remaining4_of {} st8 cat8 ≤ remaining3_of {} st8 cat8 ∧
     remaining5_of {} st8 cat8 ≤ remaining4_of {} st8 cat8 ∧
     remaining6_of {} st8 cat8 ≤ remaining5_of {} st8 cat8) ∧
    (0 ≤ remaining1_of {} st8 cat8 ∧ 0 ≤ remaining2_of {} st8 cat8 ∧
     0 ≤ remaining3_of {} st8 cat8 ∧ 0 ≤ remaining4_of {} st8 cat8 ∧
     0 ≤ remaining5_of {} st8 cat8 ∧ 0 ≤ remaining6_of {} st8 cat8) ∧
    ((∀ m, (main_of {} st8 cat8).1 = some m → m.price ≤ eff_budget st8) ∧
     (∀ c, (comp_of {} st8 cat8).1 = some c →
        c.price ≤ remaining1_of {} st8 cat8) ∧
     (∀ l, (layer_of {} st8 cat8).1 = some l →
        l.price ≤ remaining2_of {} st8 cat8) ∧
     (∀ j, (jewelry_of {} st8 cat8).1 = some j →
        j.price ≤ remaining3_of {} st8 cat8) ∧
     (∀ f, (footwear_of {} st8 cat8).1 = some f →
        f.price ≤ remaining4_of {} st8 cat8) ∧
     (∀ a, (accessory_of {} st8 cat8).1 = some a →
        a.price ≤ remaining5_of {} st8 cat8)) :=
  c5_budget_monotone_never_negative gsc_globals llm0 {} st8 cat8
    (build_state llm0 {} st8 cat8) (by decide) (by decide) rfl

/-- C8 (amended). For every completed curation run, the recommendation's
selected items are exactly the assembled slot items (the scorer removes
nothing), but the rule-of-three validation that `curate` computes is
discarded: the exported colour palette is the hex codes of the first
three assembled colours, regardless of the validation verdict, and no
field of the recommendation carries the violation or the suggested
reduced set. -/
theorem c8_items_kept_validation_discarded (g : List String)
    (llm : List OutfitItem → String → String → List String → String → String)
    (gd : Guidance) (st : StyleState) (cat : List Row) (out : StyleState)
    (rec : FinalRecommendation)
    (hok : curate g llm gd st cat = .ok out)
    (hrec : out.final_recommendation = some rec) :
    rec.outfit_items = items_of gd st cat ∧
    rec.color_palette =
      ((colors_of gd st cat).take 3).map ColorEngine.get_color_hex := by
  have hout := curate_ok g llm gd st cat out hok
  subst hout
  simp only [build_state] at hrec
  injection hrec with hrec
  subst hrec
  exact ⟨rfl, rfl⟩

/-- C8 witness: the amended claim instantiated on the four-row run. -/
theorem c8_items_kept_validation_discarded_witness :
    c8_rec.outfit_items = items_of {} st8 cat8 ∧
    c8_rec.color_palette =
      ((colors_of {} st8 cat8).take 3).map ColorEngine.get_color_hex :=
  c8_items_kept_validation_discarded gsc_globals llm0 {} st8 cat8
    (build_state llm0 {} st8 cat8) c8_rec rfl rfl

theorem cat8_budget : eff_budget st8 = 15000 := by decide

theorem cat8_main : main_of {} st8 cat8 = (some row_M1, false) := by decide

theorem cat8_r1 : remaining1_of {} st8 cat8 = 12000 := by
  unfold remaining1_of
  rw [cat8_main, cat8_budget]
  show (15000 : ℚ) - row_M1.price = 12000
  rw [show row_M1.price = 3000 from rfl]
  norm_num

theorem cat8_sec1 : sec_colors1_of {} st8 cat8 = ["#D4AF37", "#FFFFF0"] := by
  unfold sec_colors1_of
  rw [cat8_main]
  decide

theorem cat8_comp : comp_of {} st8 cat8 = (some row_C1, false) := by
  unfold comp_of
  rw [cat8_main]
  dsimp only
  rw [cat8_r1, cat8_sec1]
  decide

theorem cat8_r2 : remaining2_of {} st8 cat8 = 10000 := by
  unfold remaining2_of
  rw [cat8_comp, cat8_r1]
  show (12000 : ℚ) - row_C1.price = 10000
  rw [show row_C1.price = 2000 from rfl]
  norm_num

theorem cat8_sec2 : sec_colors2_of {} st8 cat8 = ["#D4AF37", "#FFFFF0"] := by
  unfold sec_colors2_of
  rw [cat8_main]
  decide

theorem cat8_layer : layer_of {} st8 cat8 = (some row_L1, false) := by
  unfold layer_of
  rw [cat8_r2, cat8_sec2]
  decide

theorem cat8_r3 : remaining3_of {} st8 cat8 = 8500 := by
  unfold remaining3_of
  rw [cat8_layer, cat8_r2]
  show (10000 : ℚ) - row_L1.price = 8500
  rw [show row_L1.price = 1500 from rfl]
  norm_num

theorem cat8_jewelry : jewelry_of {} st8 cat8 = (some row_J1, false) := by
  unfold jewelry_of
  rw [cat8_r3]
  decide

theorem cat8_r4 : remaining4_of {} st8 cat8 = 7500 := by
  unfold remaining4_of
  rw [cat8_jewelry, cat8_r3]
  show (8500 : ℚ) - row_J1.price = 7500
  rw [show row_J1.price = 1000 from rfl]
  norm_num

theorem cat8_footwear : footwear_of {} st8 cat8 = (none, false) := by
  unfold footwear_of
  rw [cat8_r4]
  decide

theorem cat8_r5 : remaining5_of {} st8 cat8 = 7500 := by
  unfold remaining5_of
  rw [cat8_footwear, cat8_r4]
  norm_num

theorem cat8_accessory : accessory_of {} st8 cat8 = (none, false) := by
  unfold accessory_of
  rw [cat8_r5]
  decide

theorem cat8_colors : colors_of {} st8 cat8 = ["Red", "Gold", "Teal", "Magenta"] := by
  unfold colors_of
  rw [cat8_main, cat8_comp, cat8_layer, cat8_jewelry, cat8_accessory]
  decide

theorem cat8_item_skus :
    (items_of {} st8 cat8).map (fun i => i.sku) = ["M1", "C1", "L1", "J1"] := by
  unfold items_of
  rw [cat8_main, cat8_comp, cat8_layer, cat8_jewelry, cat8_footwear,
    cat8_accessory]
  decide

theorem cat8_total : total_items_of {} st8 cat8 = 4 := by
  unfold total_items_of
  rw [cat8_main, cat8_comp, cat8_layer, cat8_jewelry, cat8_footwear,
    cat8_accessory]
  decide

theorem cat8_curate :
    curate gsc_globals llm0 {} st8 cat8 = .ok (build_state llm0 {} st8 cat8) :=
  rfl

/-- C8 counterexample: on the four-row catalog the assembled bundle
collects four non-neutral colour families, so `validate_rule_of_three`
reports a violation with the reduced set `["Red", "Gold"]` — yet the
returned recommendation exports the unreduced three-colour palette and
keeps all four items: the violation and the suggested reduced set appear
nowhere in the output. -/
theorem c8_violation_unreported_on_cat8 :
    (ColorEngine.validate_rule_of_three (colors_of {} st8 cat8)).valid = false ∧
    (ColorEngine.validate_rule_of_three (colors_of {} st8 cat8)).dropped =
      some ["Teal", "Magenta"] ∧
    ((curate gsc_globals llm0 {} st8 cat8).toOption.bind
        (fun o => o.final_recommendation)).map (fun r => r.color_palette) =
      some ["#D2042D", "#D4AF37", "#008080"] ∧
    ((ColorEngine.validate_rule_of_three (colors_of {} st8 cat8)).colors.map
        ColorEngine.get_color_hex) = ["#D2042D", "#D4AF37"] ∧
    ¬ (["#D2042D", "#D4AF37", "#008080"] : List String) = ["#D2042D", "#D4AF37"] ∧
    ((curate gsc_globals llm0 {} st8 cat8).toOption.bind
        (fun o => o.final_recommendation)).map
        (fun r => r.outfit_items.map (fun i => i.sku)) =
      some ["M1", "C1", "L1", "J1"] := by
  refine ⟨?_, ?_, ?_, ?_, by decide, ?_⟩
  · rw [cat8_colors]
    decide
  · rw [cat8_colors]
    decide
  · rw [cat8_curate]
    simp only [Except.toOption, Option.bind, build_state]
    rw [cat8_colors]
    decide
  · rw [cat8_colors]
    decide
  · rw [cat8_curate]
    simp only [Except.toOption, Option.bind, Option.map, build_state]
    rw [cat8_item_skus]

/-- C10. For every curation run whose preferred vibe is the default
`"Any"`, the strict vibe query is skipped, every slot fill reports no
vibe match, and the bundle's vibe-confidence score is exactly 0 no
matter how many slots were filled. -/
theorem c10_vibe_any_gives_zero_confidence (g : List String)
    (llm : List OutfitItem → String → String → List String → String → String)
    (gd : Guidance) (st : StyleState) (cat : List Row) (out : StyleState)
    (rec : FinalRecommendation)
    (hv : st.preferred_vibe = "Any")
    (hok : curate g llm gd st cat = .ok out)
    (hrec : out.final_recommendation = some rec) :
    rec.confidence_score = 0 ∧
    (main_of gd st cat).2 = false ∧ (comp_of gd st cat).2 = false ∧
    (layer_of gd st cat).2 = false ∧ (jewelry_of gd st cat).2 = false ∧
    (footwear_of gd st cat).2 = false ∧ (accessory_of gd st cat).2 = false := by
  have hout := curate_ok g llm gd st cat out hok
  subst hout
  simp only [build_state] at hrec
  injection hrec with hrec
  subst hrec
  refine ⟨?_, main_of_any gd st cat hv, comp_of_any gd st cat hv,
    layer_of_any gd st cat hv, jewelry_of_any gd st cat hv,
    footwear_of_any gd st cat hv, accessory_of_any gd st cat hv⟩
  show (if total_items_of gd st cat > 0 then
      ((vibe_hits_of gd st cat : ℚ) / (total_items_of gd st cat : ℚ)) * 100
    else 0) = 0
  rw [vibe_hits_of_any gd st cat hv]
  split_ifs
  · simp
  · rfl

/-- C10 witness: a concrete completed run (four slots fill) with the
default vibe, whose confidence score is 0. -/
theorem c10_vibe_any_gives_zero_confidence_witness :
    c8_rec.confidence_score = 0 ∧ total_items_of {} st8 cat8 = 4 :=
  ⟨(c10_vibe_any_gives_zero_confidence gsc_globals llm0 {} st8 cat8
      (build_state llm0 {} st8 cat8) c8_rec rfl rfl rfl).1,
   cat8_total⟩

end WardrobeArchitect

end StyleAgent
